import Mathlib

/-
  Verification development for the cratermaker repository.

  Part 1 embeds the configuration resolver of src/cratermaker/simulation.py
  (set_properties, create_catalogue, Material, Target).
  Part 2 embeds the orchestrator of src/cratermaker/core/simulation.py
  (apply_noise, emplace_crater, generate_crater, generate_projectile),
  with the collaborators that are not under src/ (scaling laws, surface
  queries, the Fortran noise kernel, the random generator) modelled from
  the specification.
-/

namespace Cratermaker

/-! ## Python value model for the configuration resolver -/

/-- A primitive Python value as stored on the configurable objects:
None, a float (modelled as an exact rational), or a string. -/
inductive Prim where
  | pnone
  | pnum (q : ℚ)
  | pstr (s : String)
deriving DecidableEq

/-- A single catalogue entry or JSON section: property name to primitive value. -/
abbrev PropsMap := List (String × Prim)

/-- A catalogue: entry name to its property map (create_catalogue output). -/
abbrev Catalogue := List (String × PropsMap)

/-- A Python attribute value: a primitive, a catalogue dictionary, or an
opaque reference to another object (used for the Target.material field). -/
inductive PyVal where
  | prim (p : Prim)
  | cat (c : Catalogue)
  | objref
deriving DecidableEq

/-- An object's mutable attribute dictionary, in insertion order. -/
abbrev Obj := List (String × PyVal)

/-- First-match association-list lookup (Python dict access). -/
def lookupA {α : Type} (l : List (String × α)) (k : String) : Option α :=
  (l.find? (fun p => p.1 == k)).map (fun p => p.2)

/-- Python hasattr on the modelled attribute dictionary. -/
def hasattr (o : Obj) (k : String) : Bool :=
  (lookupA o k).isSome

/-- Map the value stored under one key through a function, keeping order. -/
def updateKey {α : Type} (l : List (String × α)) (k : String) (f : α → α) :
    List (String × α) :=
  l.map (fun p => if p.1 == k then (p.1, f p.2) else p)

/-- Replace the value stored under an existing key, keeping order. -/
def updateAttr (o : Obj) (k : String) (v : PyVal) : Obj :=
  updateKey o k (fun _ => v)

/-- Python setattr: update the attribute if present, otherwise append it. -/
def setattr (o : Obj) (k : String) (v : PyVal) : Obj :=
  if hasattr o k then updateAttr o k v else o ++ [(k, v)]

/-! ## set_properties (src/cratermaker/simulation.py lines 22-66) -/

/-- Inner helper set_properties_from_arguments: for each keyword pair, set the
attribute only when the object already has it. -/
def set_properties_from_arguments (o : Obj) (kwargs : List (String × PyVal)) : Obj :=
  kwargs.foldl (fun acc kv => if hasattr acc kv.1 then setattr acc kv.1 kv.2 else acc) o

/-- View a primitive property map as keyword arguments. -/
def primKwargs (props : PropsMap) : List (String × PyVal) :=
  props.map (fun p => (p.1, PyVal.prim p.2))

/-- Inner helper set_properties_from_catalogue: look the key up and, when a
non-empty match is found (Python truthiness of the dict), apply it. -/
def set_properties_from_catalogue (o : Obj) (c : Catalogue) (key : String) : Obj :=
  match lookupA c key with
  | some props => if props.isEmpty then o else set_properties_from_arguments o (primKwargs props)
  | none => o

/-- The modelled file system: maps a file name to the parsed JSON content,
itself a map from a section name to a property map. -/
abbrev FileSys := List (String × List (String × PropsMap))

/-- Python str.lower, modelled as a per-character lowering of the string. -/
def strLower (s : String) : String :=
  String.mk (s.data.map Char.toLower)

/-- Inner helper set_properties_from_file: read the JSON file and, when the
lower-cased class name is one of its sections, apply that section. -/
def set_properties_from_file (o : Obj) (fs : FileSys) (filename : String)
    (className : String) : Obj :=
  let content := (lookupA fs filename).getD []
  match lookupA content (strLower className) with
  | some props => set_properties_from_arguments o (primKwargs props)
  | none => o

/-- The first layer of set_properties: applied when a filename keyword is
present (and names a readable JSON file). -/
def spFileLayer (o : Obj) (fs : FileSys) (className : String)
    (kwargs : List (String × PyVal)) : Obj :=
  match lookupA kwargs "filename" with
  | some (PyVal.prim (Prim.pstr fn)) => set_properties_from_file o fs fn className
  | some _ => o
  | none => o

/-- The second layer of set_properties: applied when both a catalogue and a
key keyword are present. -/
def spCatLayer (o : Obj) (kwargs : List (String × PyVal)) : Obj :=
  match lookupA kwargs "catalogue", lookupA kwargs "key" with
  | some (PyVal.cat c), some (PyVal.prim (Prim.pstr key)) =>
      set_properties_from_catalogue o c key
  | _, _ => o

/-- set_properties: apply the file layer (when a filename keyword is present),
then the catalogue layer (when both catalogue and key keywords are present),
then every keyword argument, and finally report the first attribute whose
value is still None, if any, as the raised configuration error.  The returned
object is the mutated object, whether or not the error is raised (Python
mutates in place and the ValueError escapes afterwards). -/
def set_properties (o : Obj) (fs : FileSys) (className : String)
    (kwargs : List (String × PyVal)) : Obj × Option String :=
  let o3 := set_properties_from_arguments (spCatLayer (spFileLayer o fs className kwargs) kwargs) kwargs
  (o3, (o3.find? (fun p => p.2 == PyVal.prim Prim.pnone)).map (fun p => p.1))

/-! ## create_catalogue and the Material / Target dataclasses -/

/-- create_catalogue: key each row by its first column and drop that column
from the stored property map. -/
def create_catalogue (header : List String) (values : List (List Prim)) : Catalogue :=
  values.map (fun tab =>
    let key := match tab.head? with
      | some (Prim.pstr s) => s
      | _ => ""
    (key, (header.zip tab).filter (fun p => p.1 != header.headD "")))

/-- One standard Earth gravity in SI units (source literal 9.80665), as in
Target.__post_init__.  All decimal literals of the source are written as
exact rationals in mkRat form. -/
def gEarth : ℚ := mkRat 980665 100000

/-- The material property header of Material.__post_init__. -/
def materialProperties : List String :=
  ["name", "K1", "mu", "Ybar", "density"]

/-- The material catalogue rows of Material.__post_init__ (Richardson 2009);
the source decimals 2.30, 0.55, ... are written as exact rationals. -/
def materialValues : List (List Prim) :=
  [ [Prim.pstr "Water", Prim.pnum (mkRat 230 100), Prim.pnum (mkRat 55 100), Prim.pnum 0, Prim.pnum 1000],
    [Prim.pstr "Sand", Prim.pnum (mkRat 24 100), Prim.pnum (mkRat 41 100), Prim.pnum 0, Prim.pnum 1750],
    [Prim.pstr "Dry Soil", Prim.pnum (mkRat 24 100), Prim.pnum (mkRat 41 100), Prim.pnum (mkRat 18 100), Prim.pnum 1500],
    [Prim.pstr "Wet Soil", Prim.pnum (mkRat 20 100), Prim.pnum (mkRat 55 100), Prim.pnum (mkRat 114 100), Prim.pnum 2000],
    [Prim.pstr "Soft Rock", Prim.pnum (mkRat 20 100), Prim.pnum (mkRat 55 100), Prim.pnum (mkRat 760 100), Prim.pnum 2250],
    [Prim.pstr "Hard Rock", Prim.pnum (mkRat 20 100), Prim.pnum (mkRat 55 100), Prim.pnum 18, Prim.pnum 2500],
    [Prim.pstr "Ice", Prim.pnum (mkRat 230 100), Prim.pnum (mkRat 39 100), Prim.pnum 0, Prim.pnum 900] ]

/-- The material catalogue built in Material.__post_init__. -/
def materialCatalogue : Catalogue :=
  create_catalogue materialProperties materialValues

/-- Wrap an optional string constructor argument as an attribute value. -/
def optStr (s : Option String) : PyVal :=
  match s with
  | some v => PyVal.prim (Prim.pstr v)
  | none => PyVal.prim Prim.pnone

/-- Wrap an optional numeric constructor argument as an attribute value. -/
def optNum (q : Option ℚ) : PyVal :=
  match q with
  | some v => PyVal.prim (Prim.pnum v)
  | none => PyVal.prim Prim.pnone

/-- The dataclass-generated field assignments of Material.__init__. -/
def materialInit (name : Option String) (K1 mu Ybar density : Option ℚ) : Obj :=
  [("name", optStr name), ("K1", optNum K1), ("mu", optNum mu),
   ("Ybar", optNum Ybar), ("density", optNum density)]

/-- Python truthiness of the name attribute as tested by "if self.name". -/
def truthyName (o : Obj) : Option String :=
  match lookupA o "name" with
  | some (PyVal.prim (Prim.pstr n)) => if n = "" then none else some n
  | _ => none

/-- Material.__post_init__: store the catalogue, then resolve the properties
from it by name, or raise when no material name was given.  A ValueError
raised by set_properties is propagated with its message. -/
def materialPostInit (o : Obj) : Except String Obj :=
  let o := setattr o "catalogue" (PyVal.cat materialCatalogue)
  match truthyName o with
  | some n =>
      match set_properties o [] "Material"
        [("catalogue", PyVal.cat materialCatalogue), ("key", PyVal.prim (Prim.pstr n))] with
      | (o2, none) => Except.ok o2
      | (_, some e) => Except.error ("The property " ++ e ++ " has not been set!")
  | none => Except.error "No material defined!"

/-- Constructing Material(name=...) with every other field left to default. -/
def Material.make (name : Option String) : Except String Obj :=
  materialPostInit (materialInit name none none none none)

/-- The body property header of Target.__post_init__. -/
def bodyProperties : List String :=
  ["name", "radius", "gravity", "material_name"]

/-- The body catalogue rows of Target.__post_init__; the numeric literals are
the exact source values (radii in metres, gravities as multiples of gEarth). -/
def bodyValues : List (List Prim) :=
  [ [Prim.pstr "Mercury", Prim.pnum 2440000, Prim.pnum (mkRat 377 1000 * gEarth), Prim.pstr "Soft Rock"],
    [Prim.pstr "Venus", Prim.pnum 6051840, Prim.pnum (mkRat 905 1000 * gEarth), Prim.pstr "Hard Rock"],
    [Prim.pstr "Earth", Prim.pnum 6371010, Prim.pnum (1 * gEarth), Prim.pstr "Wet Soil"],
    [Prim.pstr "Moon", Prim.pnum 1737530, Prim.pnum (mkRat 1657 10000 * gEarth), Prim.pstr "Soft Rock"],
    [Prim.pstr "Mars", Prim.pnum 3389920, Prim.pnum (mkRat 379 1000 * gEarth), Prim.pstr "Soft Rock"],
    [Prim.pstr "Ceres", Prim.pnum 469700, Prim.pnum (mkRat 29 100 * gEarth), Prim.pstr "Ice"],
    [Prim.pstr "Vesta", Prim.pnum 262700, Prim.pnum (mkRat 25 100 * gEarth), Prim.pstr "Soft Rock"] ]

/-- The body catalogue built in Target.__post_init__. -/
def bodyCatalogue : Catalogue :=
  create_catalogue bodyProperties bodyValues

/-- A constructed Target: its attribute dictionary together with the Material
object referenced by its material attribute. -/
structure TargetObj where
  attrs : Obj
  material : Obj
deriving DecidableEq

/-- Constructing Target(name=..., material=...): the dataclass first assigns
the fields, calling the default factory Material() when no material argument
is supplied (which raises, since Material() has no name), then runs
Target.__post_init__, which stores the body catalogue and resolves the
remaining properties from it by name. -/
def Target.make (name : Option String) (material : Option Obj) : Except String TargetObj := do
  let mat ← match material with
    | some m => pure m
    | none => Material.make none
  let o : Obj := [("name", optStr name), ("radius", PyVal.prim Prim.pnone),
                  ("gravity", PyVal.prim Prim.pnone), ("material", PyVal.objref)]
  let o := setattr o "catalogue" (PyVal.cat bodyCatalogue)
  match truthyName o with
  | some n =>
      match set_properties o [] "Target"
        [("catalogue", PyVal.cat bodyCatalogue), ("key", PyVal.prim (Prim.pstr n))] with
      | (o2, none) => Except.ok ⟨o2, mat⟩
      | (_, some e) => Except.error ("The property " ++ e ++ " has not been set!")
  | none => Except.error "No target defined!"

/-- The Soft Rock material object, as constructed by Material("Soft Rock"). -/
def softRockObj : Obj :=
  (Material.make (some "Soft Rock")).toOption.getD []

/-! ## Lemmas about the attribute-dictionary operations -/

theorem lookupA_nil {α : Type} (k : String) : lookupA ([] : List (String × α)) k = none := rfl

theorem lookupA_cons {α : Type} (a : String) (b : α) (t : List (String × α)) (k : String) :
    lookupA ((a, b) :: t) k = if a = k then some b else lookupA t k := by
  by_cases h : a = k <;> simp [lookupA, List.find?_cons, h]

theorem lookupA_eq_none_of_not_mem {α : Type} {l : List (String × α)} {k : String}
    (h : k ∉ l.map Prod.fst) : lookupA l k = none := by
  induction l with
  | nil => rfl
  | cons p t ih =>
      obtain ⟨a, b⟩ := p
      simp only [List.map_cons, List.mem_cons] at h
      push_neg at h
      rw [lookupA_cons, if_neg (fun hak => h.1 hak.symm)]
      exact ih h.2

theorem lookupA_updateKey {α : Type} (l : List (String × α)) (k : String)
    (f : α → α) (k' : String) :
    lookupA (updateKey l k f) k' =
      if k' = k then (lookupA l k).map f else lookupA l k' := by
  induction l with
  | nil => simp [updateKey, lookupA_nil]
  | cons p t ih =>
      obtain ⟨a, b⟩ := p
      have hmap : updateKey ((a, b) :: t) k f
          = (if a == k then (a, f b) else (a, b)) :: updateKey t k f := by
        simp [updateKey]
      rw [hmap]
      by_cases hak : a = k
      · by_cases hk : k' = k
        · have hk'a : a = k' := by rw [hak, hk]
          rw [if_pos (beq_iff_eq.mpr hak), lookupA_cons, if_pos hk'a,
            if_pos hk, lookupA_cons, if_pos hak]
          rfl
        · have hk'a : a ≠ k' := fun h => hk (by rw [← h, hak])
          rw [if_pos (beq_iff_eq.mpr hak), lookupA_cons, if_neg hk'a, ih, if_neg hk,
            if_neg hk, lookupA_cons, if_neg hk'a]
      · rw [if_neg (fun h => hak (beq_iff_eq.mp h))]
        by_cases hk2 : a = k'
        · have hk : ¬ k' = k := fun h => hak (by rw [hk2, h])
          rw [lookupA_cons, if_pos hk2, if_neg hk, lookupA_cons, if_pos hk2]
        · rw [lookupA_cons, if_neg hk2, ih]
          by_cases hk : k' = k
          · rw [if_pos hk, if_pos hk, lookupA_cons, if_neg hak]
          · rw [if_neg hk, if_neg hk, lookupA_cons, if_neg hk2]

theorem lookupA_updateAttr (o : Obj) (k : String) (v : PyVal) (k' : String) :
    lookupA (updateAttr o k v) k' =
      if k' = k then (lookupA o k).map (fun _ => v) else lookupA o k' :=
  lookupA_updateKey o k (fun _ => v) k'

/-- The fold step of set_properties_from_arguments. -/
def argStep (o : Obj) (kv : String × PyVal) : Obj :=
  if hasattr o kv.1 then setattr o kv.1 kv.2 else o

theorem set_properties_from_arguments_eq_foldl (o : Obj) (kwargs : List (String × PyVal)) :
    set_properties_from_arguments o kwargs = kwargs.foldl argStep o := rfl

theorem hasattr_argStep (o : Obj) (kv : String × PyVal) (k : String) :
    hasattr (argStep o kv) k = hasattr o k := by
  unfold argStep setattr
  by_cases h : hasattr o kv.1 = true
  · rw [if_pos h, if_pos h]
    unfold hasattr
    rw [lookupA_updateAttr]
    by_cases hk : k = kv.1
    · rw [if_pos hk, hk]
      cases lookupA o kv.1 <;> rfl
    · rw [if_neg hk]
  · rw [if_neg h]

theorem lookupA_argStep (o : Obj) (kv : String × PyVal) (k : String) :
    lookupA (argStep o kv) k =
      if k = kv.1 ∧ hasattr o kv.1 = true then some kv.2 else lookupA o k := by
  unfold argStep setattr
  by_cases h : hasattr o kv.1 = true
  · rw [if_pos h, if_pos h]
    rw [lookupA_updateAttr]
    by_cases hk : k = kv.1
    · rw [if_pos hk, if_pos ⟨hk, h⟩]
      unfold hasattr at h
      cases hko : lookupA o kv.1 with
      | none => rw [hko] at h; simp at h
      | some v => simp
    · rw [if_neg hk, if_neg (fun hc => hk hc.1)]
  · rw [if_neg h, if_neg (fun hc => h hc.2)]

theorem hasattr_spfa (o : Obj) (kwargs : List (String × PyVal)) (k : String) :
    hasattr (set_properties_from_arguments o kwargs) k = hasattr o k := by
  rw [set_properties_from_arguments_eq_foldl]
  induction kwargs generalizing o with
  | nil => rfl
  | cons kv rest ih =>
      rw [List.foldl_cons, ih, hasattr_argStep]

theorem lookupA_spfa (o : Obj) (kwargs : List (String × PyVal)) (k : String)
    (hnd : (kwargs.map Prod.fst).Nodup) :
    lookupA (set_properties_from_arguments o kwargs) k =
      if hasattr o k = true ∧ (lookupA kwargs k).isSome = true
      then lookupA kwargs k else lookupA o k := by
  rw [set_properties_from_arguments_eq_foldl]
  induction kwargs generalizing o with
  | nil => simp [lookupA_nil]
  | cons kv rest ih =>
      obtain ⟨k0, v0⟩ := kv
      simp only [List.map_cons, List.nodup_cons] at hnd
      rw [List.foldl_cons, ih _ hnd.2, hasattr_argStep, lookupA_argStep, lookupA_cons]
      by_cases hk : k0 = k
      · subst hk
        have hrest : lookupA rest k0 = none := lookupA_eq_none_of_not_mem hnd.1
        by_cases h : hasattr o k0 = true <;> simp [hrest, h]
      · simp only [if_neg hk]
        by_cases h2 : k = k0 ∧ hasattr o k0 = true
        · exact absurd h2.1 (Ne.symm hk)
        · rw [if_neg h2]

theorem map_fst_primKwargs (props : PropsMap) :
    (primKwargs props).map Prod.fst = props.map Prod.fst := by
  simp [primKwargs]

theorem lookupA_primKwargs (props : PropsMap) (k : String) :
    lookupA (primKwargs props) k = (lookupA props k).map PyVal.prim := by
  induction props with
  | nil => rfl
  | cons p t ih =>
      obtain ⟨a, b⟩ := p
      have : primKwargs ((a, b) :: t) = (a, PyVal.prim b) :: primKwargs t := by
        simp [primKwargs]
      rw [this, lookupA_cons, lookupA_cons]
      by_cases h : a = k
      · rw [if_pos h, if_pos h]; rfl
      · rw [if_neg h, if_neg h, ih]

theorem hasattr_spfc (o : Obj) (c : Catalogue) (key : String) (k : String) :
    hasattr (set_properties_from_catalogue o c key) k = hasattr o k := by
  unfold set_properties_from_catalogue
  cases hcp : lookupA c key with
  | none => rfl
  | some props =>
      show hasattr (if props.isEmpty = true then o
        else set_properties_from_arguments o (primKwargs props)) k = hasattr o k
      by_cases hne : props.isEmpty = true
      · rw [if_pos hne]
      · rw [if_neg hne]
        exact hasattr_spfa _ _ _

theorem hasattr_spff (o : Obj) (fs : FileSys) (fn cn : String) (k : String) :
    hasattr (set_properties_from_file o fs fn cn) k = hasattr o k := by
  simp only [set_properties_from_file]
  cases hfp : lookupA ((lookupA fs fn).getD []) (strLower cn) with
  | none => rfl
  | some props => exact hasattr_spfa _ _ _

theorem hasattr_spCatLayer (o : Obj) (kwargs : List (String × PyVal)) (k : String) :
    hasattr (spCatLayer o kwargs) k = hasattr o k := by
  unfold spCatLayer
  cases hc : lookupA kwargs "catalogue" with
  | none => rfl
  | some vc =>
      cases vc with
      | prim p => cases hk : lookupA kwargs "key" <;> rfl
      | objref => cases hk : lookupA kwargs "key" <;> rfl
      | cat c =>
          cases hk : lookupA kwargs "key" with
          | none => rfl
          | some vk =>
              cases vk with
              | cat c2 => rfl
              | objref => rfl
              | prim p =>
                  cases p with
                  | pnone => rfl
                  | pnum q => rfl
                  | pstr key => exact hasattr_spfc o c key k

theorem hasattr_spFileLayer (o : Obj) (fs : FileSys) (cn : String)
    (kwargs : List (String × PyVal)) (k : String) :
    hasattr (spFileLayer o fs cn kwargs) k = hasattr o k := by
  unfold spFileLayer
  cases hf : lookupA kwargs "filename" with
  | none => rfl
  | some vf =>
      cases vf with
      | cat c => rfl
      | objref => rfl
      | prim p =>
          cases p with
          | pnone => rfl
          | pnum q => rfl
          | pstr fn => exact hasattr_spff o fs fn cn k

theorem spCatLayer_eq (o : Obj) (kwargs : List (String × PyVal)) (c : Catalogue)
    (key : String) (props : PropsMap)
    (hc : lookupA kwargs "catalogue" = some (PyVal.cat c))
    (hk : lookupA kwargs "key" = some (PyVal.prim (Prim.pstr key)))
    (hcp : lookupA c key = some props) (hne : props ≠ []) :
    spCatLayer o kwargs = set_properties_from_arguments o (primKwargs props) := by
  unfold spCatLayer
  rw [hc, hk]
  show set_properties_from_catalogue o c key = _
  unfold set_properties_from_catalogue
  rw [hcp]
  show (if props.isEmpty = true then o
    else set_properties_from_arguments o (primKwargs props)) = _
  rw [if_neg (fun h => hne (List.isEmpty_iff.mp h))]

theorem spFileLayer_eq (o : Obj) (fs : FileSys) (cn : String)
    (kwargs : List (String × PyVal)) (fn : String) (fprops : PropsMap)
    (hf : lookupA kwargs "filename" = some (PyVal.prim (Prim.pstr fn)))
    (hfp : lookupA ((lookupA fs fn).getD []) (strLower cn) = some fprops) :
    spFileLayer o fs cn kwargs = set_properties_from_arguments o (primKwargs fprops) := by
  unfold spFileLayer
  rw [hf]
  show set_properties_from_file o fs fn cn = _
  simp only [set_properties_from_file]
  rw [hfp]

theorem mem_of_lookupA {l : Obj} {k : String} {v : PyVal}
    (h : lookupA l k = some v) : (k, v) ∈ l := by
  unfold lookupA at h
  cases hf : l.find? (fun p => p.1 == k) with
  | none => rw [hf] at h; simp at h
  | some p =>
      rw [hf] at h
      simp only [Option.map_some'] at h
      have hmem := List.mem_of_find?_eq_some hf
      have hpred := List.find?_some hf
      have hk : p.1 = k := by simpa using hpred
      obtain ⟨p1, p2⟩ := p
      simp only at hk h
      subst hk
      have hv : p2 = v := Option.some.inj h
      subst hv
      exact hmem

/-- The keyword layer always wins: whatever the file and catalogue layers did,
a keyword value for an existing attribute is the final value. -/
theorem lookupA_set_properties_kwarg (o : Obj) (fs : FileSys) (cn : String)
    (kwargs : List (String × PyVal)) (k : String) (v : PyVal)
    (hnd : (kwargs.map Prod.fst).Nodup)
    (hk : hasattr o k = true) (hv : lookupA kwargs k = some v) :
    lookupA (set_properties o fs cn kwargs).1 k = some v := by
  have hres : (set_properties o fs cn kwargs).1
      = set_properties_from_arguments (spCatLayer (spFileLayer o fs cn kwargs) kwargs) kwargs := rfl
  rw [hres, lookupA_spfa _ _ _ hnd, hasattr_spCatLayer, hasattr_spFileLayer, hv,
    if_pos ⟨hk, rfl⟩]

/-! ## Claim theorems about the configuration resolver -/

/-- C7: set_properties resolves an object from three layered sources applied
in increasing priority: first the JSON file section matching the lower-cased
type name of the object, then the named catalogue entry, then the direct
keyword arguments, each later layer overriding the earlier ones; and it
raises a configuration error exactly when some attribute of the object is
still None after all three layers. -/
theorem c7_set_properties_layering
    (o : Obj) (fs : FileSys) (cn : String) (kwargs : List (String × PyVal))
    (fn key : String) (c : Catalogue) (props fprops : PropsMap)
    (hnd : (kwargs.map Prod.fst).Nodup)
    (hpnd : (props.map Prod.fst).Nodup)
    (hfnd : (fprops.map Prod.fst).Nodup)
    (hfn : lookupA kwargs "filename" = some (PyVal.prim (Prim.pstr fn)))
    (hc : lookupA kwargs "catalogue" = some (PyVal.cat c))
    (hkey : lookupA kwargs "key" = some (PyVal.prim (Prim.pstr key)))
    (hcp : lookupA c key = some props) (hne : props ≠ [])
    (hfp : lookupA ((lookupA fs fn).getD []) (strLower cn) = some fprops) :
    (∀ k v, hasattr o k = true → lookupA kwargs k = some v →
        lookupA (set_properties o fs cn kwargs).1 k = some v)
    ∧ (∀ k pv, hasattr o k = true → lookupA kwargs k = none →
        lookupA props k = some pv →
        lookupA (set_properties o fs cn kwargs).1 k = some (PyVal.prim pv))
    ∧ (∀ k fv, hasattr o k = true → lookupA kwargs k = none →
        lookupA props k = none → lookupA fprops k = some fv →
        lookupA (set_properties o fs cn kwargs).1 k = some (PyVal.prim fv))
    ∧ (∀ k, lookupA kwargs k = none → lookupA props k = none →
        lookupA fprops k = none →
        lookupA (set_properties o fs cn kwargs).1 k = lookupA o k)
    ∧ ((set_properties o fs cn kwargs).2 = none ↔
        ∀ p ∈ (set_properties o fs cn kwargs).1, p.2 ≠ PyVal.prim Prim.pnone) := by
  have hres : (set_properties o fs cn kwargs).1
      = set_properties_from_arguments (spCatLayer (spFileLayer o fs cn kwargs) kwargs) kwargs := rfl
  have h1 : spFileLayer o fs cn kwargs = set_properties_from_arguments o (primKwargs fprops) :=
    spFileLayer_eq o fs cn kwargs fn fprops hfn hfp
  have h2 : spCatLayer (spFileLayer o fs cn kwargs) kwargs
      = set_properties_from_arguments (spFileLayer o fs cn kwargs) (primKwargs props) :=
    spCatLayer_eq _ kwargs c key props hc hkey hcp hne
  have hpnd' : ((primKwargs props).map Prod.fst).Nodup := by
    rw [map_fst_primKwargs]; exact hpnd
  have hfnd' : ((primKwargs fprops).map Prod.fst).Nodup := by
    rw [map_fst_primKwargs]; exact hfnd
  refine ⟨?_, ?_, ?_, ?_, ?_⟩
  · intro k v hk hv
    exact lookupA_set_properties_kwarg o fs cn kwargs k v hnd hk hv
  · intro k pv hk hkn hpk
    rw [hres, lookupA_spfa _ _ _ hnd, hasattr_spCatLayer, hasattr_spFileLayer, hkn,
      if_neg (fun hcon => by simpa using hcon.2), h2,
      lookupA_spfa _ _ _ hpnd', hasattr_spFileLayer, lookupA_primKwargs, hpk,
      if_pos ⟨hk, rfl⟩]
    rfl
  · intro k fv hk hkn hpk hfk
    rw [hres, lookupA_spfa _ _ _ hnd, hasattr_spCatLayer, hasattr_spFileLayer, hkn,
      if_neg (fun hcon => by simpa using hcon.2), h2,
      lookupA_spfa _ _ _ hpnd', hasattr_spFileLayer, lookupA_primKwargs, hpk,
      if_neg (fun hcon => by simpa using hcon.2), h1,
      lookupA_spfa _ _ _ hfnd', lookupA_primKwargs, hfk, if_pos ⟨hk, rfl⟩]
    rfl
  · intro k hkn hpk hfk
    rw [hres, lookupA_spfa _ _ _ hnd, hkn,
      if_neg (fun hcon => by simpa using hcon.2), h2,
      lookupA_spfa _ _ _ hpnd', lookupA_primKwargs, hpk,
      if_neg (fun hcon => by simpa using hcon.2), h1,
      lookupA_spfa _ _ _ hfnd', lookupA_primKwargs, hfk,
      if_neg (fun hcon => by simpa using hcon.2)]
  · have herr : (set_properties o fs cn kwargs).2
        = ((set_properties o fs cn kwargs).1.find?
            (fun p => p.2 == PyVal.prim Prim.pnone)).map (fun p => p.1) := rfl
    rw [herr, Option.map_eq_none', List.find?_eq_none]
    simp only [beq_iff_eq]

/-- Concrete data for the C7 witness: an object with four unset attributes. -/
def w7obj : Obj :=
  [("x", PyVal.prim Prim.pnone), ("y", PyVal.prim Prim.pnone),
   ("z", PyVal.prim Prim.pnone), ("w", PyVal.prim (Prim.pnum 1))]

/-- Concrete file system for the C7 witness. -/
def w7fs : FileSys :=
  [("f.json", [("material", [("x", Prim.pnum 10), ("y", Prim.pnum 20)])])]

/-- Concrete keyword arguments for the C7 witness. -/
def w7kwargs : List (String × PyVal) :=
  [("filename", PyVal.prim (Prim.pstr "f.json")),
   ("catalogue", PyVal.cat [("k", [("y", Prim.pnum 30)])]),
   ("key", PyVal.prim (Prim.pstr "k")),
   ("z", PyVal.prim (Prim.pnum 40))]

/-- Witness for C7 at concrete inputs: the catalogue layer overrides the file
layer for the y attribute. -/
theorem c7_set_properties_layering_witness :
    lookupA (set_properties w7obj w7fs "Material" w7kwargs).1 "y"
      = some (PyVal.prim (Prim.pnum 30)) :=
  (c7_set_properties_layering w7obj w7fs "Material" w7kwargs "f.json" "k"
    [("k", [("y", Prim.pnum 30)])] [("y", Prim.pnum 30)] [("x", Prim.pnum 10), ("y", Prim.pnum 20)]
    (by decide) (by decide) (by decide) (by decide) (by decide) (by decide)
    (by decide) (by decide) (by decide)).2.1 "y" (Prim.pnum 30)
    (by decide) (by decide) (by decide)

/-- C10: set_properties is not atomic on error.  When the final None check
raises, the keyword mutations (including the file and catalogue mutations)
remain applied to the object; in particular an explicit None keyword for an
existing attribute overwrites its value with None and then triggers the
error, leaving the attribute None. -/
theorem c10_set_properties_error_not_atomic
    (o : Obj) (fs : FileSys) (cn : String) (kwargs : List (String × PyVal)) (k : String)
    (hnd : (kwargs.map Prod.fst).Nodup)
    (hk : hasattr o k = true)
    (hkn : lookupA kwargs k = some (PyVal.prim Prim.pnone)) :
    lookupA (set_properties o fs cn kwargs).1 k = some (PyVal.prim Prim.pnone)
    ∧ (set_properties o fs cn kwargs).2.isSome = true
    ∧ (∀ k' v', hasattr o k' = true → lookupA kwargs k' = some v' →
        lookupA (set_properties o fs cn kwargs).1 k' = some v') := by
  have hmain : lookupA (set_properties o fs cn kwargs).1 k = some (PyVal.prim Prim.pnone) :=
    lookupA_set_properties_kwarg o fs cn kwargs k _ hnd hk hkn
  refine ⟨hmain, ?_, ?_⟩
  · have hmem : (k, PyVal.prim Prim.pnone) ∈ (set_properties o fs cn kwargs).1 :=
      mem_of_lookupA hmain
    have herr : (set_properties o fs cn kwargs).2
        = ((set_properties o fs cn kwargs).1.find?
            (fun p => p.2 == PyVal.prim Prim.pnone)).map (fun p => p.1) := rfl
    rw [herr]
    cases hfind : (set_properties o fs cn kwargs).1.find?
        (fun p => p.2 == PyVal.prim Prim.pnone) with
    | none =>
        rw [List.find?_eq_none] at hfind
        exact absurd (by simp) (hfind _ hmem)
    | some p => rfl
  · intro k' v' hk' hv'
    exact lookupA_set_properties_kwarg o fs cn kwargs k' v' hnd hk' hv'

/-- Witness for C10 at concrete inputs: passing an explicit None for an
existing attribute leaves the attribute None and raises. -/
theorem c10_set_properties_error_not_atomic_witness :
    lookupA (set_properties [("a", PyVal.prim (Prim.pnum 1))] [] "Simulation"
        [("a", PyVal.prim Prim.pnone)]).1 "a" = some (PyVal.prim Prim.pnone)
    ∧ (set_properties [("a", PyVal.prim (Prim.pnum 1))] [] "Simulation"
        [("a", PyVal.prim Prim.pnone)]).2.isSome = true :=
  ⟨(c10_set_properties_error_not_atomic [("a", PyVal.prim (Prim.pnum 1))] [] "Simulation"
      [("a", PyVal.prim Prim.pnone)] "a" (by decide) (by decide) (by decide)).1,
   (c10_set_properties_error_not_atomic [("a", PyVal.prim (Prim.pnum 1))] [] "Simulation"
      [("a", PyVal.prim Prim.pnone)] "a" (by decide) (by decide) (by decide)).2.1⟩

/-- C8: the claim says constructing a Target named Moon yields radius
1,737,530 m with the Soft Rock material.  On this code Target("Moon")
instead raises ValueError("No material defined!"), because the dataclass
default factory runs Material() with no name; and even when a material is
passed explicitly, the catalogue column material_name is never applied
(Target has no attribute of that name), so the material is never resolved
from the catalogue.  The Soft Rock catalogue values themselves are as the
claim states (K1 = 0.20, mu = 0.55, Ybar = 7.60, density = 2250.0), and the
Moon radius resolved from the body catalogue is 1,737,530 m. -/
theorem c8_moon_target_construction
    : Target.make (some "Moon") none = Except.error "No material defined!"
    ∧ (Material.make (some "Soft Rock")).toOption.bind (fun m => lookupA m "K1")
        = some (PyVal.prim (Prim.pnum (mkRat 1 5)))
    ∧ (Material.make (some "Soft Rock")).toOption.bind (fun m => lookupA m "mu")
        = some (PyVal.prim (Prim.pnum (mkRat 11 20)))
    ∧ (Material.make (some "Soft Rock")).toOption.bind (fun m => lookupA m "Ybar")
        = some (PyVal.prim (Prim.pnum (mkRat 38 5)))
    ∧ (Material.make (some "Soft Rock")).toOption.bind (fun m => lookupA m "density")
        = some (PyVal.prim (Prim.pnum 2250))
    ∧ (Target.make (some "Moon") (some softRockObj)).toOption.map
        (fun t => lookupA t.attrs "radius")
        = some (some (PyVal.prim (Prim.pnum 1737530)))
    ∧ (Target.make (some "Moon") (some softRockObj)).toOption.map (fun t => t.material)
        = some softRockObj := by
  exact ⟨rfl, by decide, by decide, by decide, by decide, by decide, by decide⟩

/-! ## Part 2: the scaling laws

Modelled from the spec: the ScalingLaw component lives in
cratermaker/core/crater.py and the scale objects it builds, which are not
under src/.  Following spec section 4.1 we model a Holsapple/Housen-style
two-regime power law: in the strength regime the crater diameter scales
with projectile energy and material strength through the K1 and mu
constants; in the gravity regime it scales with momentum and gravity; the
regime boundary is a transition length computed from Ybar, density and
gravity, and the selected regime is identical whether approached from the
crater diameter or from the projectile size. -/

/-- Modelled from the spec: the fully-resolved physical description of the
target used by the scaling laws (PhysicalBody, spec section 3). -/
structure Body where
  radius : ℝ
  gravity : ℝ
  K1 : ℝ
  mu : ℝ
  Ybar : ℝ
  density : ℝ

/-- A fully-resolved body: every numeric field set and physically sensible
(radius, gravity, K1, density positive, 0 < mu < 1, Ybar nonnegative — the
catalogue holds zero-strength materials such as Water and Sand). -/
def Body.resolved (b : Body) : Prop :=
  0 < b.radius ∧ 0 < b.gravity ∧ 0 < b.K1 ∧ 0 < b.mu ∧ b.mu < 1
    ∧ 0 ≤ b.Ybar ∧ 0 < b.density

/-- Modelled from the spec: the Projectile value record (spec section 3). -/
@[ext]
structure Projectile where
  radius : ℝ
  diameter : ℝ
  velocity : ℝ
  sin_impact_angle : ℝ
  vertical_velocity : ℝ
  lat : ℚ
  lon : ℚ

/-- Modelled from the spec: the Crater value record (spec section 3).  The
morphotype is kept as the complex-or-simple classification bit derived from
the diameter; the average surface normal is set only by emplacement. -/
@[ext]
structure Crater where
  diameter : ℝ
  radius : ℝ
  morphoComplex : Bool
  lat : ℚ
  lon : ℚ
  average_surface_normal_vector : Option (ℝ × ℝ × ℝ)

/-- The transition projectile length separating the strength and gravity
regimes, computed from Ybar, density and gravity (spec section 4.1). -/
noncomputable def transitionLength (b : Body) : ℝ :=
  b.Ybar / (b.density * b.gravity)

/-- Strength-regime scaling coefficient at vertical impact speed w: crater
diameter scales with the projectile energy (through w squared) and the
material strength Ybar via the K1 and mu constants. -/
noncomputable def strengthCoeff (b : Body) (w : ℝ) : ℝ :=
  b.K1 * (b.density * w ^ 2 / b.Ybar) ^ b.mu

/-- Gravity-regime scaling coefficient at vertical impact speed w: crater
diameter scales with the momentum and the target gravity. -/
noncomputable def gravityCoeff (b : Body) (w : ℝ) : ℝ :=
  b.K1 * (w ^ 2 / b.gravity) ^ b.mu

/-- Crater diameter produced by a projectile of diameter L at vertical
impact speed w: strength regime at or below the transition length, gravity
regime above it. -/
noncomputable def craterDiameterOf (b : Body) (L w : ℝ) : ℝ :=
  if L ≤ transitionLength b then strengthCoeff b w * L
  else gravityCoeff b w * L ^ (1 - b.mu)

/-- The crater diameter at the regime boundary. -/
noncomputable def transitionDiameter (b : Body) (w : ℝ) : ℝ :=
  strengthCoeff b w * transitionLength b

/-- Projectile diameter recovered from a crater diameter D: the inverse of
craterDiameterOf, with the regime selected from the transition crater
diameter so that it agrees with the forward selection. -/
noncomputable def projectileDiameterOf (b : Body) (D w : ℝ) : ℝ :=
  if D ≤ transitionDiameter b w then D / strengthCoeff b w
  else (D / gravityCoeff b w) ^ (1 - b.mu)⁻¹

/-- Modelled from the spec: the morphotype bit, derived from the crater
diameter relative to a body-specific transition diameter. -/
noncomputable def morphoComplexOf (b : Body) (D : ℝ) : Bool :=
  decide (transitionLength b < D)

/-- crater_to_projectile: rebuild the projectile that produces a given
crater under the same body, at the given impact velocity and impact-angle
sine (the kinematic context of the conversion). -/
noncomputable def crater_to_projectile (b : Body) (v s : ℝ) (c : Crater) : Projectile :=
  { radius := projectileDiameterOf b c.diameter (v * s) / 2,
    diameter := projectileDiameterOf b c.diameter (v * s),
    velocity := v, sin_impact_angle := s, vertical_velocity := v * s,
    lat := c.lat, lon := c.lon }

/-- projectile_to_crater: the crater produced by a projectile under a body. -/
noncomputable def projectile_to_crater (b : Body) (p : Projectile) : Crater :=
  { diameter := craterDiameterOf b p.diameter p.vertical_velocity,
    radius := craterDiameterOf b p.diameter p.vertical_velocity / 2,
    morphoComplex := morphoComplexOf b (craterDiameterOf b p.diameter p.vertical_velocity),
    lat := p.lat, lon := p.lon, average_surface_normal_vector := none }

/-- The keyword arguments of a fully-specified Crater or Projectile
construction: diameter, location, velocity and impact-angle sine all
supplied by the caller (so that the seeded generator is not consulted). -/
structure CraterKw where
  diameter : ℚ
  lat : ℚ
  lon : ℚ
  velocity : ℚ
  sinAngle : ℚ
deriving DecidableEq

/-- Modelled from the spec: constructing Crater(target=..., rng=..., kwargs)
with a fully-specified keyword set. -/
noncomputable def mkCrater (b : Body) (kw : CraterKw) : Crater :=
  { diameter := (kw.diameter : ℝ), radius := (kw.diameter : ℝ) / 2,
    morphoComplex := morphoComplexOf b (kw.diameter : ℝ),
    lat := kw.lat, lon := kw.lon, average_surface_normal_vector := none }

/-- Modelled from the spec: constructing Projectile(target=..., rng=...,
kwargs) with a fully-specified keyword set. -/
noncomputable def mkProjectile (kw : CraterKw) : Projectile :=
  { radius := (kw.diameter : ℝ) / 2, diameter := (kw.diameter : ℝ),
    velocity := (kw.velocity : ℝ), sin_impact_angle := (kw.sinAngle : ℝ),
    vertical_velocity := (kw.velocity : ℝ) * (kw.sinAngle : ℝ),
    lat := kw.lat, lon := kw.lon }

/-- generate_crater (src/cratermaker/core/simulation.py lines 173-191):
build the Crater, then derive its Projectile with crater_to_projectile. -/
noncomputable def generate_crater (b : Body) (kw : CraterKw) : Crater × Projectile :=
  (mkCrater b kw,
   crater_to_projectile b (kw.velocity : ℝ) (kw.sinAngle : ℝ) (mkCrater b kw))

/-- generate_projectile (src/cratermaker/core/simulation.py lines 194-211):
build the Projectile, then derive its Crater with projectile_to_crater. -/
noncomputable def generate_projectile (b : Body) (kw : CraterKw) : Projectile × Crater :=
  (mkProjectile kw, projectile_to_crater b (mkProjectile kw))

/-- The record invariants of a valid projectile (spec section 3). -/
def Projectile.consistent (p : Projectile) : Prop :=
  p.diameter = 2 * p.radius ∧ p.vertical_velocity = p.velocity * p.sin_impact_angle
    ∧ 0 < p.diameter ∧ 0 < p.velocity ∧ 0 < p.sin_impact_angle ∧ p.sin_impact_angle ≤ 1

/-- The record invariants of a valid not-yet-emplaced crater under a body. -/
def Crater.consistent (b : Body) (c : Crater) : Prop :=
  c.radius = c.diameter / 2 ∧ c.morphoComplex = morphoComplexOf b c.diameter
    ∧ c.average_surface_normal_vector = none ∧ 0 < c.diameter

theorem strengthCoeff_nonneg (b : Body) (w : ℝ) (hb : b.resolved) :
    0 ≤ strengthCoeff b w := by
  obtain ⟨hr, hg, hK, hm, hm1, hY, hd⟩ := hb
  exact mul_nonneg hK.le (Real.rpow_nonneg (by positivity) _)

theorem strengthCoeff_pos (b : Body) (w : ℝ) (hb : b.resolved)
    (hw : 0 < w) (hY : 0 < b.Ybar) : 0 < strengthCoeff b w := by
  obtain ⟨hr, hg, hK, hm, hm1, _, hd⟩ := hb
  exact mul_pos hK (Real.rpow_pos_of_pos (by positivity) _)

theorem gravityCoeff_pos (b : Body) (w : ℝ) (hb : b.resolved)
    (hw : 0 < w) : 0 < gravityCoeff b w := by
  obtain ⟨hr, hg, hK, hm, hm1, hY, hd⟩ := hb
  exact mul_pos hK (Real.rpow_pos_of_pos (by positivity) _)

theorem transitionLength_nonneg (b : Body) (hb : b.resolved) :
    0 ≤ transitionLength b := by
  obtain ⟨hr, hg, hK, hm, hm1, hY, hd⟩ := hb
  exact div_nonneg hY (by positivity)

theorem Ybar_pos_of_transitionLength_pos (b : Body) (hb : b.resolved)
    (h : 0 < transitionLength b) : 0 < b.Ybar := by
  obtain ⟨hr, hg, hK, hm, hm1, hY, hd⟩ := hb
  rcases hY.lt_or_eq with h0 | h0
  · exact h0
  · exfalso
    unfold transitionLength at h
    rw [← h0, zero_div] at h
    exact lt_irrefl 0 h

/-- At the regime boundary the strength and gravity formulas agree. -/
theorem regime_boundary (b : Body) (w : ℝ) (hb : b.resolved) (hw : 0 < w) :
    strengthCoeff b w * transitionLength b
      = gravityCoeff b w * transitionLength b ^ (1 - b.mu) := by
  obtain ⟨hr, hg, hK, hm, hm1, hY, hd⟩ := hb
  have h1mu : (0:ℝ) < 1 - b.mu := by linarith
  rcases hY.lt_or_eq with hY0 | hY0
  · have hLt : 0 < transitionLength b := div_pos hY0 (by positivity)
    have h1 : transitionLength b
        = transitionLength b ^ b.mu * transitionLength b ^ (1 - b.mu) := by
      rw [← Real.rpow_add hLt, show b.mu + (1 - b.mu) = 1 by ring, Real.rpow_one]
    unfold strengthCoeff gravityCoeff
    calc b.K1 * (b.density * w ^ 2 / b.Ybar) ^ b.mu * transitionLength b
        = b.K1 * ((b.density * w ^ 2 / b.Ybar) ^ b.mu * transitionLength b ^ b.mu)
            * transitionLength b ^ (1 - b.mu) := by
          conv_lhs => rw [h1]
          ring
      _ = b.K1 * ((b.density * w ^ 2 / b.Ybar) * transitionLength b) ^ b.mu
            * transitionLength b ^ (1 - b.mu) := by
          rw [← Real.mul_rpow (by positivity) hLt.le]
      _ = b.K1 * (w ^ 2 / b.gravity) ^ b.mu * transitionLength b ^ (1 - b.mu) := by
          congr 3
          unfold transitionLength
          field_simp
          ring
  · have hLt : transitionLength b = 0 := by
      unfold transitionLength
      rw [← hY0, zero_div]
    rw [hLt, mul_zero, Real.zero_rpow (ne_of_gt h1mu), mul_zero]

/-- Round trip on the projectile side: converting a projectile diameter to a
crater diameter and back recovers it exactly, in both regimes. -/
theorem projectileDiameter_round (b : Body) (w L : ℝ) (hb : b.resolved)
    (hw : 0 < w) (hL : 0 < L) :
    projectileDiameterOf b (craterDiameterOf b L w) w = L := by
  have hm1 : b.mu < 1 := hb.2.2.2.2.1
  have h1mu : (0:ℝ) < 1 - b.mu := by linarith
  unfold craterDiameterOf
  by_cases hcase : L ≤ transitionLength b
  · rw [if_pos hcase]
    have hLt : 0 < transitionLength b := lt_of_lt_of_le hL hcase
    have hY : 0 < b.Ybar := Ybar_pos_of_transitionLength_pos b hb hLt
    have hCs : 0 < strengthCoeff b w := strengthCoeff_pos b w hb hw hY
    unfold projectileDiameterOf transitionDiameter
    rw [if_pos (mul_le_mul_of_nonneg_left hcase hCs.le)]
    rw [mul_div_cancel_left₀ _ hCs.ne']
  · push_neg at hcase
    rw [if_neg (not_le.mpr hcase)]
    have hCg : 0 < gravityCoeff b w := gravityCoeff_pos b w hb hw
    have hLt0 : 0 ≤ transitionLength b := transitionLength_nonneg b hb
    have hlt : transitionDiameter b w < gravityCoeff b w * L ^ (1 - b.mu) := by
      unfold transitionDiameter
      rw [regime_boundary b w hb hw]
      exact mul_lt_mul_of_pos_left (Real.rpow_lt_rpow hLt0 hcase h1mu) hCg
    unfold projectileDiameterOf
    rw [if_neg (not_le.mpr hlt)]
    rw [mul_div_cancel_left₀ _ hCg.ne']
    exact Real.rpow_rpow_inv hL.le (ne_of_gt h1mu)

/-- Round trip on the crater side: converting a crater diameter to a
projectile diameter and back recovers it exactly, in both regimes. -/
theorem craterDiameter_round (b : Body) (w D : ℝ) (hb : b.resolved)
    (hw : 0 < w) (hD : 0 < D) :
    craterDiameterOf b (projectileDiameterOf b D w) w = D := by
  have hm1 : b.mu < 1 := hb.2.2.2.2.1
  have h1mu : (0:ℝ) < 1 - b.mu := by linarith
  have hLt0 : 0 ≤ transitionLength b := transitionLength_nonneg b hb
  have hCs0 : 0 ≤ strengthCoeff b w := strengthCoeff_nonneg b w hb
  unfold projectileDiameterOf
  by_cases hcase : D ≤ transitionDiameter b w
  · rw [if_pos hcase]
    have hDt : 0 < transitionDiameter b w := lt_of_lt_of_le hD hcase
    have hCs : 0 < strengthCoeff b w := by
      rcases hCs0.lt_or_eq with h | h
      · exact h
      · exfalso
        unfold transitionDiameter at hDt
        rw [← h, zero_mul] at hDt
        exact lt_irrefl 0 hDt
    have hLt : 0 < transitionLength b := by
      rcases hLt0.lt_or_eq with h | h
      · exact h
      · exfalso
        unfold transitionDiameter at hDt
        rw [← h, mul_zero] at hDt
        exact lt_irrefl 0 hDt
    unfold craterDiameterOf
    unfold transitionDiameter at hcase
    rw [if_pos ((div_le_iff₀ hCs).mpr (by rw [mul_comm]; exact hcase))]
    rw [mul_comm, div_mul_cancel₀ _ hCs.ne']
  · push_neg at hcase
    rw [if_neg (not_le.mpr hcase)]
    have hCg : 0 < gravityCoeff b w := gravityCoeff_pos b w hb hw
    have h2 : transitionLength b ^ (1 - b.mu) < D / gravityCoeff b w := by
      rw [lt_div_iff₀ hCg, mul_comm]
      calc gravityCoeff b w * transitionLength b ^ (1 - b.mu)
          = transitionDiameter b w := (regime_boundary b w hb hw).symm ▸ rfl
        _ < D := hcase
    have hLgt : transitionLength b < (D / gravityCoeff b w) ^ (1 - b.mu)⁻¹ := by
      have hmono := Real.rpow_lt_rpow (Real.rpow_nonneg hLt0 _) h2
        (inv_pos.mpr h1mu)
      rwa [Real.rpow_rpow_inv hLt0 (ne_of_gt h1mu)] at hmono
    unfold craterDiameterOf
    rw [if_neg (not_le.mpr hLgt)]
    rw [Real.rpow_inv_rpow (div_nonneg hD.le hCg.le) (ne_of_gt h1mu)]
    rw [mul_comm, div_mul_cancel₀ _ hCg.ne']

/-- Round trip on full records, projectile side. -/
theorem crater_to_projectile_of_projectile_to_crater (b : Body) (p : Projectile)
    (hb : b.resolved) (hp : p.consistent) :
    crater_to_projectile b p.velocity p.sin_impact_angle (projectile_to_crater b p) = p := by
  obtain ⟨hpd, hpv, hd0, hv0, hs0, -⟩ := hp
  have hw : 0 < p.vertical_velocity := by rw [hpv]; exact mul_pos hv0 hs0
  have hL : projectileDiameterOf b
      (craterDiameterOf b p.diameter p.vertical_velocity)
      (p.velocity * p.sin_impact_angle) = p.diameter := by
    rw [← hpv]
    exact projectileDiameter_round b p.vertical_velocity p.diameter hb hw hd0
  ext
  · show projectileDiameterOf b _ _ / 2 = p.radius
    rw [show (projectile_to_crater b p).diameter
        = craterDiameterOf b p.diameter p.vertical_velocity from rfl, hL, hpd]
    ring
  · show projectileDiameterOf b _ _ = p.diameter
    rw [show (projectile_to_crater b p).diameter
        = craterDiameterOf b p.diameter p.vertical_velocity from rfl, hL]
  · rfl
  · rfl
  · exact hpv.symm
  · rfl
  · rfl

/-- Round trip on full records, crater side. -/
theorem projectile_to_crater_of_crater_to_projectile (b : Body) (c : Crater) (v s : ℝ)
    (hb : b.resolved) (hc : c.consistent b) (hv : 0 < v) (hs : 0 < s) :
    projectile_to_crater b (crater_to_projectile b v s c) = c := by
  obtain ⟨hcr, hcm, hcn, hd0⟩ := hc
  have hw : 0 < v * s := mul_pos hv hs
  have hD : craterDiameterOf b (projectileDiameterOf b c.diameter (v * s)) (v * s)
      = c.diameter := craterDiameter_round b (v * s) c.diameter hb hw hd0
  refine Crater.ext ?_ ?_ ?_ ?_ ?_ ?_
  · show craterDiameterOf b _ _ = c.diameter
    rw [show (crater_to_projectile b v s c).diameter
        = projectileDiameterOf b c.diameter (v * s) from rfl,
      show (crater_to_projectile b v s c).vertical_velocity = v * s from rfl, hD]
  · show craterDiameterOf b _ _ / 2 = c.radius
    rw [show (crater_to_projectile b v s c).diameter
        = projectileDiameterOf b c.diameter (v * s) from rfl,
      show (crater_to_projectile b v s c).vertical_velocity = v * s from rfl, hD, hcr]
  · show morphoComplexOf b (craterDiameterOf b _ _) = c.morphoComplex
    rw [show (crater_to_projectile b v s c).diameter
        = projectileDiameterOf b c.diameter (v * s) from rfl,
      show (crater_to_projectile b v s c).vertical_velocity = v * s from rfl, hD, hcm]
  · rfl
  · rfl
  · exact hcn.symm

theorem mkCrater_consistent (b : Body) (kw : CraterKw) (h : 0 < kw.diameter) :
    (mkCrater b kw).consistent b :=
  ⟨rfl, rfl, rfl, by show (0:ℝ) < (kw.diameter : ℝ); exact_mod_cast h⟩

theorem mkProjectile_consistent (kw : CraterKw) (hd : 0 < kw.diameter)
    (hv : 0 < kw.velocity) (hs : 0 < kw.sinAngle) (hs1 : kw.sinAngle ≤ 1) :
    (mkProjectile kw).consistent := by
  refine ⟨?_, rfl, ?_, ?_, ?_, ?_⟩
  · show (kw.diameter : ℝ) = 2 * ((kw.diameter : ℝ) / 2)
    ring
  · show (0:ℝ) < (kw.diameter : ℝ)
    exact_mod_cast hd
  · show (0:ℝ) < (kw.velocity : ℝ)
    exact_mod_cast hv
  · show (0:ℝ) < (kw.sinAngle : ℝ)
    exact_mod_cast hs
  · show (kw.sinAngle : ℝ) ≤ 1
    exact_mod_cast hs1

/-- C1: crater_to_projectile and projectile_to_crater are exact inverses
under the same fully-resolved body, in both the strength and the gravity
scaling regime (the regime selection agrees in the two directions);
consequently the (crater, projectile) pair returned by generate_crater and
the (projectile, crater) pair returned by generate_projectile are inverse
pairs.  Over the real-number model the round trip is exact, hence within
any floating tolerance. -/
theorem c1_scaling_round_trip (b : Body) (p : Projectile) (c : Crater) (v s : ℝ)
    (kw : CraterKw) (hb : b.resolved) (hp : p.consistent) (hc : c.consistent b)
    (hv : 0 < v) (hs : 0 < s) (hs1 : s ≤ 1)
    (hkd : 0 < kw.diameter) (hkv : 0 < kw.velocity) (hks : 0 < kw.sinAngle)
    (hks1 : kw.sinAngle ≤ 1) :
    crater_to_projectile b p.velocity p.sin_impact_angle (projectile_to_crater b p) = p
    ∧ projectile_to_crater b (crater_to_projectile b v s c) = c
    ∧ projectile_to_crater b (generate_crater b kw).2 = (generate_crater b kw).1
    ∧ crater_to_projectile b (generate_projectile b kw).1.velocity
        (generate_projectile b kw).1.sin_impact_angle (generate_projectile b kw).2
        = (generate_projectile b kw).1 := by
  refine ⟨crater_to_projectile_of_projectile_to_crater b p hb hp,
    projectile_to_crater_of_crater_to_projectile b c v s hb hc hv hs, ?_, ?_⟩
  · exact projectile_to_crater_of_crater_to_projectile b (mkCrater b kw) _ _ hb
      (mkCrater_consistent b kw hkd) (by exact_mod_cast hkv) (by exact_mod_cast hks)
  · exact crater_to_projectile_of_projectile_to_crater b (mkProjectile kw) hb
      (mkProjectile_consistent kw hkd hkv hks hks1)

/-- A concrete resolved body for the C1 witness. -/
noncomputable def bodyW : Body := ⟨1, 1, 1, 1 / 2, 1, 1⟩

/-- A concrete valid projectile for the C1 witness. -/
noncomputable def projW : Projectile := ⟨1, 2, 1, 1, 1, 0, 0⟩

/-- A concrete valid crater for the C1 witness. -/
noncomputable def craterW : Crater := ⟨1, 1 / 2, morphoComplexOf bodyW 1, 0, 0, none⟩

/-- Concrete construction keywords for the C1 witness. -/
def kwW : CraterKw := ⟨1, 0, 0, 1, 1⟩

/-- Witness for C1 at concrete inputs. -/
theorem c1_scaling_round_trip_witness :
    crater_to_projectile bodyW projW.velocity projW.sin_impact_angle
        (projectile_to_crater bodyW projW) = projW
    ∧ projectile_to_crater bodyW (crater_to_projectile bodyW 1 1 craterW) = craterW :=
  ⟨(c1_scaling_round_trip bodyW projW craterW 1 1 kwW
      ⟨by norm_num [bodyW], by norm_num [bodyW], by norm_num [bodyW], by norm_num [bodyW],
        by norm_num [bodyW], by norm_num [bodyW], by norm_num [bodyW]⟩
      ⟨by norm_num [projW], by norm_num [projW], by norm_num [projW],
        by norm_num [projW], by norm_num [projW], by norm_num [projW]⟩
      ⟨by norm_num [craterW], rfl, rfl, by norm_num [craterW]⟩
      one_pos one_pos le_rfl (by norm_num [kwW]) (by norm_num [kwW])
      (by norm_num [kwW]) (by norm_num [kwW])).1,
   (c1_scaling_round_trip bodyW projW craterW 1 1 kwW
      ⟨by norm_num [bodyW], by norm_num [bodyW], by norm_num [bodyW], by norm_num [bodyW],
        by norm_num [bodyW], by norm_num [bodyW], by norm_num [bodyW]⟩
      ⟨by norm_num [projW], by norm_num [projW], by norm_num [projW],
        by norm_num [projW], by norm_num [projW], by norm_num [projW]⟩
      ⟨by norm_num [craterW], rfl, rfl, by norm_num [craterW]⟩
      one_pos one_pos le_rfl (by norm_num [kwW]) (by norm_num [kwW])
      (by norm_num [kwW]) (by norm_num [kwW])).2.1⟩

/-! ## Part 3: apply_noise and the simulation state

The orchestrator state of src/cratermaker/core/simulation.py, with the
surface grid fields owned by the Surface collaborator.  The target values
are carried exactly (rationals); the scaling records built from them live
over the reals through the cast in TargetQ.toBody. -/

/-- The target body with exact rational fields, as carried by the
simulation (one source of truth for the radius used by both the noise
pipeline and the scaling laws). -/
structure TargetQ where
  radius : ℚ
  gravity : ℚ
  K1 : ℚ
  mu : ℚ
  Ybar : ℚ
  density : ℚ
deriving DecidableEq

/-- The target as seen by the scaling laws. -/
noncomputable def TargetQ.toBody (t : TargetQ) : Body :=
  ⟨(t.radius : ℝ), (t.gravity : ℝ), (t.K1 : ℝ), (t.mu : ℝ), (t.Ybar : ℝ), (t.density : ℝ)⟩

/-- The simulation state: the target, the draw counter of the seeded
generator, the surface grid (per-node elevation and normalized node
coordinates, per-cell locations as latitude/longitude pairs), the current
crater and projectile, and the per-cell crater_distance and crater_bearing
fields (unset before the first emplacement). -/
structure SimState where
  target : TargetQ
  rngCount : ℕ
  elevation : List ℚ
  nodeCoord : List (ℚ × ℚ × ℚ)
  cellLoc : List (ℚ × ℚ)
  crater : Option Crater
  projectile : Option Projectile
  craterDist : Option (List ℝ)
  craterBear : Option (List ℝ)

/-- The arguments of one apply_noise call: the named parameters with their
source defaults, and the remaining keyword arguments (num_octaves and
anchor are popped from kwargs by the source, so they are carried apart;
noise_height cannot occur among the extra kwargs because the named
parameter captures it). -/
structure NoiseArgs where
  model : String := "turbulence"
  noiseWidth : ℚ := 1000000
  noiseHeight : ℚ := 20000
  numOctaves : Option ℕ := none
  anchor : Option (List (ℚ × ℚ × ℚ)) := none
  kwargs : List (String × ℚ) := []

/-- dict.setdefault: append the pair only when the key is absent. -/
def setdefaultQ (kw : List (String × ℚ)) (k : String) (v : ℚ) : List (String × ℚ) :=
  if (lookupA kw k).isSome then kw else kw ++ [(k, v)]

/-- Keyword lookup with a default. -/
def getQ (kw : List (String × ℚ)) (k : String) (d : ℚ) : ℚ :=
  (lookupA kw k).getD d

/-- Modelled from the spec: the seeded random generator supplies a derived
sequence of uniform unit-interval draws (same seed, same sequence); the
sequence is modelled abstractly as a fixed stream indexed by a draw counter
carried in the simulation state. -/
def rngStream (n : ℕ) : ℚ :=
  1 / ((n : ℚ) + 2)

/-- rng.uniform(0.0, scale, size=(num_octaves, 3)): the anchor triples and
the advanced draw counter (3 num_octaves uniform samples are consumed). -/
def drawUniformTriples (cnt : ℕ) (n : ℕ) (scale : ℚ) : List (ℚ × ℚ × ℚ) × ℕ :=
  ((List.range n).map (fun i =>
    (scale * rngStream (cnt + 3 * i), scale * rngStream (cnt + 3 * i + 1),
     scale * rngStream (cnt + 3 * i + 2))), cnt + 3 * n)

/-- The models of the first default group of apply_noise (lines 311-314). -/
def turbGroup : List String := ["turbulence", "billowed", "plaw", "ridged"]

/-- Lines 311-314: default noise_height, freq and pers for the first group. -/
def turbStep (model : String) (noiseHeight : ℚ) (kw : List (String × ℚ)) :
    List (String × ℚ) :=
  if model ∈ turbGroup then
    setdefaultQ (setdefaultQ (setdefaultQ kw "noise_height" noiseHeight) "freq" 2)
      "pers" (mkRat 5 10)
  else kw

/-- Lines 315-316: default slope for the plaw model. -/
def plawStep (model : String) (kw : List (String × ℚ)) : List (String × ℚ) :=
  if model = "plaw" then setdefaultQ kw "slope" 2 else kw

/-- Lines 317-320: default lacunarity, gain and warp for swiss and jordan. -/
def swissStep (model : String) (kw : List (String × ℚ)) : List (String × ℚ) :=
  if model = "swiss" ∨ model = "jordan" then
    setdefaultQ (setdefaultQ (setdefaultQ kw "lacunarity" (mkRat 192 100))
      "gain" (mkRat 5 10)) "warp" (mkRat 35 100)
  else kw

/-- Lines 321-326: default gain0, warp0, damp0, damp, damp_scale for jordan. -/
def jordanStep (model : String) (kw : List (String × ℚ)) : List (String × ℚ) :=
  if model = "jordan" then
    setdefaultQ (setdefaultQ (setdefaultQ (setdefaultQ (setdefaultQ kw
      "gain0" 70) "warp0" (mkRat 4 10)) "damp0" 1) "damp" (mkRat 8 10))
      "damp_scale" (mkRat 1 100)
  else kw

/-- Lines 310-326: the keyword arguments after the per-model defaults. -/
def defaultedKwargs (a : NoiseArgs) : List (String × ℚ) :=
  jordanStep a.model (swissStep a.model (plawStep a.model
    (turbStep a.model a.noiseHeight a.kwargs)))

/-- Lines 328-329: when noise_height is among the keyword arguments, it is
divided by the target radius before reaching the evaluator (the hard
unit-normalization invariant). -/
def normalizeNoiseHeight (kw : List (String × ℚ)) (R : ℚ) : List (String × ℚ) :=
  if (lookupA kw "noise_height").isSome then
    updateKey kw "noise_height" (fun v => v / R)
  else kw

/-- The keyword arguments exactly as delivered to the noise evaluator. -/
def effectiveKwargs (R : ℚ) (a : NoiseArgs) : List (String × ℚ) :=
  normalizeNoiseHeight (defaultedKwargs a) R

/-- An arbitrary fixed smooth octave kernel standing in for one coherent
noise octave; the spec does not pin the kernel and no claim depends on its
values. -/
def octaveKernel (x y z : ℚ) : ℚ :=
  x * y * z - x * y - y * z - z * x + x + y + z

/-- Multi-octave sum: octaves at increasing frequency and decreasing
amplitude, spatially decorrelated by the per-octave anchor offsets. -/
def sumOctaves (x y z : ℚ) (n : ℕ) (anchor : List (ℚ × ℚ × ℚ)) (freq pers : ℚ) : ℚ :=
  (List.range n).foldl (fun acc i =>
    let av := anchor.getD i (0, 0, 0)
    acc + pers ^ i * octaveKernel (freq ^ i * x + av.1) (freq ^ i * y + av.2.1)
      (freq ^ i * z + av.2.2)) 0

/-- Modelled from the spec: the shape of the Fortran evaluator per model
family, reading the per-model parameters from the keyword arguments
(noise_height excluded: it is the pure amplitude, applied in utilPerlin). -/
def baseNoise (model : String) (x y z : ℚ) (n : ℕ) (anchor : List (ℚ × ℚ × ℚ))
    (kw : List (String × ℚ)) : ℚ :=
  if model ∈ turbGroup then
    (if model = "plaw" then getQ kw "slope" 2 else 1)
      * sumOctaves x y z n anchor (getQ kw "freq" 2) (getQ kw "pers" (mkRat 5 10))
  else
    sumOctaves (getQ kw "warp" (mkRat 35 100) * x) (getQ kw "warp" (mkRat 35 100) * y)
      (getQ kw "warp" (mkRat 35 100) * z) n anchor
      (getQ kw "lacunarity" (mkRat 192 100)) (getQ kw "gain" (mkRat 5 10))

/-- Modelled from the spec: util_perlin, the Fortran noise evaluator (not
under src/).  Its output scales linearly with the noise_height amplitude it
receives (spec sections 4.3 and 8); the multi-octave structure is as
specified, with an arbitrary fixed octave kernel. -/
def utilPerlin (model : String) (x y z : ℚ) (n : ℕ) (anchor : List (ℚ × ℚ × ℚ))
    (kw : List (String × ℚ)) : ℚ :=
  getQ kw "noise_height" 1 * baseNoise model x y z n anchor kw

/-- apply_noise (src/cratermaker/core/simulation.py lines 299-338): resolve
the per-model defaults, normalize noise_height by the target radius,
evaluate the noise at the node coordinates times scale over radius, scale
the result back by the radius and add it to the elevation.  The default
anchor is always drawn from the generator, Python evaluating the pop
default eagerly, so the draw counter advances by 3 num_octaves on every
call even when an explicit anchor is supplied. -/
def applyNoise (s : SimState) (a : NoiseArgs) : SimState :=
  let scale := s.target.radius / a.noiseWidth
  let n := a.numOctaves.getD 12
  let drawn := drawUniformTriples s.rngCount n scale
  let anchor := a.anchor.getD drawn.1
  let kw := effectiveKwargs s.target.radius a
  let vals := s.nodeCoord.map (fun c =>
    utilPerlin a.model (c.1 * scale / s.target.radius)
      (c.2.1 * scale / s.target.radius) (c.2.2 * scale / s.target.radius) n anchor kw)
  { s with
    elevation := List.zipWith (fun e d => e + d) s.elevation
      (vals.map (fun v => v * s.target.radius)),
    rngCount := drawn.2 }

/-- The elevation increment that one apply_noise call adds, as a function of
the target radius, the node coordinates, the rng draw counter and the call
arguments only: the prior elevation does not enter. -/
def noiseDelta (R : ℚ) (coords : List (ℚ × ℚ × ℚ)) (cnt : ℕ) (a : NoiseArgs) : List ℚ :=
  let scale := R / a.noiseWidth
  let n := a.numOctaves.getD 12
  let anchor := a.anchor.getD (drawUniformTriples cnt n scale).1
  let kw := effectiveKwargs R a
  (coords.map (fun c =>
    utilPerlin a.model (c.1 * scale / R) (c.2.1 * scale / R) (c.2.2 * scale / R)
      n anchor kw)).map (fun v => v * R)

/-- The noise_height-independent part of the elevation increment: the same
pipeline with the amplitude stripped (the placeholder zero never reaches
baseNoise, which does not read noise_height). -/
def baseDelta (R : ℚ) (coords : List (ℚ × ℚ × ℚ)) (cnt : ℕ) (model : String)
    (noiseWidth : ℚ) (numOctaves : Option ℕ) (anchorArg : Option (List (ℚ × ℚ × ℚ)))
    (kwargs : List (String × ℚ)) : List ℚ :=
  let scale := R / noiseWidth
  let n := numOctaves.getD 12
  let anchor := anchorArg.getD (drawUniformTriples cnt n scale).1
  let kw := effectiveKwargs R ⟨model, noiseWidth, 0, numOctaves, anchorArg, kwargs⟩
  coords.map (fun c =>
    baseNoise model (c.1 * scale / R) (c.2.1 * scale / R) (c.2.2 * scale / R) n anchor kw)

/-! ## Lemmas about the keyword pipeline of apply_noise -/

theorem lookupA_append {α : Type} (l1 l2 : List (String × α)) (k : String) :
    lookupA (l1 ++ l2) k = (lookupA l1 k).orElse (fun _ => lookupA l2 k) := by
  induction l1 with
  | nil => simp [lookupA_nil]
  | cons p t ih =>
      obtain ⟨a, b⟩ := p
      rw [List.cons_append, lookupA_cons, lookupA_cons]
      by_cases h : a = k
      · rw [if_pos h, if_pos h]
        rfl
      · rw [if_neg h, if_neg h, ih]

theorem lookupA_setdefaultQ_of_none (kw : List (String × ℚ)) (k : String) (v : ℚ)
    (h : lookupA kw k = none) : lookupA (setdefaultQ kw k v) k = some v := by
  unfold setdefaultQ
  rw [h]
  simp only [Option.isSome_none, Bool.false_eq_true, if_false]
  rw [lookupA_append, h, lookupA_cons, if_pos rfl]
  rfl

theorem lookupA_setdefaultQ_of_ne (kw : List (String × ℚ)) (k : String) (v : ℚ)
    (k' : String) (h : k' ≠ k) : lookupA (setdefaultQ kw k v) k' = lookupA kw k' := by
  unfold setdefaultQ
  by_cases hc : (lookupA kw k).isSome
  · rw [if_pos hc]
  · rw [if_neg hc, lookupA_append, lookupA_cons, if_neg (fun hk => h hk.symm)]
    cases lookupA kw k' <;> rfl

/-- Two keyword lists that agree for every key except one. -/
def kwAgreeExcept (k0 : String) (kw₁ kw₂ : List (String × ℚ)) : Prop :=
  ∀ k, k ≠ k0 → lookupA kw₁ k = lookupA kw₂ k

theorem kwAgreeExcept_setdefault_same (k0 k : String) (v : ℚ)
    (kw₁ kw₂ : List (String × ℚ)) (hag : kwAgreeExcept k0 kw₁ kw₂) (hk : k ≠ k0) :
    kwAgreeExcept k0 (setdefaultQ kw₁ k v) (setdefaultQ kw₂ k v) := by
  intro k' hk'
  unfold setdefaultQ
  rw [hag k hk]
  by_cases hc : (lookupA kw₂ k).isSome
  · rw [if_pos hc, if_pos hc]
    exact hag k' hk'
  · rw [if_neg hc, if_neg hc, lookupA_append, lookupA_append, hag k' hk']

theorem kwAgreeExcept_setdefault_key (k0 : String) (v₁ v₂ : ℚ)
    (kw : List (String × ℚ)) :
    kwAgreeExcept k0 (setdefaultQ kw k0 v₁) (setdefaultQ kw k0 v₂) := by
  intro k hk
  unfold setdefaultQ
  by_cases hc : (lookupA kw k0).isSome
  · rw [if_pos hc, if_pos hc]
  · rw [if_neg hc, if_neg hc, lookupA_append, lookupA_append,
      show lookupA [(k0, v₁)] k = none from by
        rw [lookupA_cons, if_neg (fun h => hk h.symm)]; rfl,
      show lookupA [(k0, v₂)] k = none from by
        rw [lookupA_cons, if_neg (fun h => hk h.symm)]; rfl]

theorem kwAgreeExcept_refl (k0 : String) (kw : List (String × ℚ)) :
    kwAgreeExcept k0 kw kw := fun _ _ => rfl

theorem turbStep_agree (model : String) (h₁ h₂ : ℚ) (kw : List (String × ℚ)) :
    kwAgreeExcept "noise_height" (turbStep model h₁ kw) (turbStep model h₂ kw) := by
  unfold turbStep
  by_cases hc : model ∈ turbGroup
  · rw [if_pos hc, if_pos hc]
    exact kwAgreeExcept_setdefault_same _ _ _ _ _
      (kwAgreeExcept_setdefault_same _ _ _ _ _
        (kwAgreeExcept_setdefault_key _ _ _ _) (by decide)) (by decide)
  · rw [if_neg hc, if_neg hc]
    exact kwAgreeExcept_refl _ _

theorem plawStep_agree (model : String) (kw₁ kw₂ : List (String × ℚ))
    (hag : kwAgreeExcept "noise_height" kw₁ kw₂) :
    kwAgreeExcept "noise_height" (plawStep model kw₁) (plawStep model kw₂) := by
  unfold plawStep
  by_cases hc : model = "plaw"
  · rw [if_pos hc, if_pos hc]
    exact kwAgreeExcept_setdefault_same _ _ _ _ _ hag (by decide)
  · rw [if_neg hc, if_neg hc]
    exact hag

theorem swissStep_agree (model : String) (kw₁ kw₂ : List (String × ℚ))
    (hag : kwAgreeExcept "noise_height" kw₁ kw₂) :
    kwAgreeExcept "noise_height" (swissStep model kw₁) (swissStep model kw₂) := by
  unfold swissStep
  by_cases hc : model = "swiss" ∨ model = "jordan"
  · rw [if_pos hc, if_pos hc]
    exact kwAgreeExcept_setdefault_same _ _ _ _ _
      (kwAgreeExcept_setdefault_same _ _ _ _ _
        (kwAgreeExcept_setdefault_same _ _ _ _ _ hag (by decide)) (by decide)) (by decide)
  · rw [if_neg hc, if_neg hc]
    exact hag

theorem jordanStep_agree (model : String) (kw₁ kw₂ : List (String × ℚ))
    (hag : kwAgreeExcept "noise_height" kw₁ kw₂) :
    kwAgreeExcept "noise_height" (jordanStep model kw₁) (jordanStep model kw₂) := by
  unfold jordanStep
  by_cases hc : model = "jordan"
  · rw [if_pos hc, if_pos hc]
    exact kwAgreeExcept_setdefault_same _ _ _ _ _
      (kwAgreeExcept_setdefault_same _ _ _ _ _
        (kwAgreeExcept_setdefault_same _ _ _ _ _
          (kwAgreeExcept_setdefault_same _ _ _ _ _
            (kwAgreeExcept_setdefault_same _ _ _ _ _ hag (by decide))
            (by decide)) (by decide)) (by decide)) (by decide)
  · rw [if_neg hc, if_neg hc]
    exact hag

theorem defaultedKwargs_agree (a : NoiseArgs) (h0 : ℚ) :
    kwAgreeExcept "noise_height" (defaultedKwargs a)
      (defaultedKwargs ⟨a.model, a.noiseWidth, h0, a.numOctaves, a.anchor, a.kwargs⟩) := by
  unfold defaultedKwargs
  exact jordanStep_agree _ _ _ (swissStep_agree _ _ _ (plawStep_agree _ _ _
    (turbStep_agree _ _ _ _)))

theorem lookupA_normalize_nh (kw : List (String × ℚ)) (R H : ℚ)
    (h : lookupA kw "noise_height" = some H) :
    lookupA (normalizeNoiseHeight kw R) "noise_height" = some (H / R) := by
  unfold normalizeNoiseHeight
  rw [h]
  simp only [Option.isSome_some, if_true]
  rw [lookupA_updateKey, if_pos rfl, h]
  rfl

theorem lookupA_normalize_other (kw : List (String × ℚ)) (R : ℚ) (k : String)
    (hk : k ≠ "noise_height") :
    lookupA (normalizeNoiseHeight kw R) k = lookupA kw k := by
  unfold normalizeNoiseHeight
  by_cases hc : (lookupA kw "noise_height").isSome
  · rw [if_pos hc, lookupA_updateKey, if_neg hk]
  · rw [if_neg hc]

theorem effectiveKwargs_agree (R : ℚ) (a : NoiseArgs) (h0 : ℚ) :
    kwAgreeExcept "noise_height" (effectiveKwargs R a)
      (effectiveKwargs R ⟨a.model, a.noiseWidth, h0, a.numOctaves, a.anchor, a.kwargs⟩) := by
  intro k hk
  unfold effectiveKwargs
  rw [lookupA_normalize_other _ _ _ hk, lookupA_normalize_other _ _ _ hk]
  exact defaultedKwargs_agree a h0 k hk

theorem lookupA_turbStep_nh (model : String) (h : ℚ) (kw : List (String × ℚ))
    (hm : model ∈ turbGroup) (hkw : lookupA kw "noise_height" = none) :
    lookupA (turbStep model h kw) "noise_height" = some h := by
  unfold turbStep
  rw [if_pos hm, lookupA_setdefaultQ_of_ne _ _ _ _ (by decide),
    lookupA_setdefaultQ_of_ne _ _ _ _ (by decide),
    lookupA_setdefaultQ_of_none _ _ _ hkw]

theorem lookupA_plawStep_nh (model : String) (kw : List (String × ℚ)) :
    lookupA (plawStep model kw) "noise_height" = lookupA kw "noise_height" := by
  unfold plawStep
  by_cases hc : model = "plaw"
  · rw [if_pos hc, lookupA_setdefaultQ_of_ne _ _ _ _ (by decide)]
  · rw [if_neg hc]

theorem lookupA_swissStep_nh (model : String) (kw : List (String × ℚ)) :
    lookupA (swissStep model kw) "noise_height" = lookupA kw "noise_height" := by
  unfold swissStep
  by_cases hc : model = "swiss" ∨ model = "jordan"
  · rw [if_pos hc, lookupA_setdefaultQ_of_ne _ _ _ _ (by decide),
      lookupA_setdefaultQ_of_ne _ _ _ _ (by decide),
      lookupA_setdefaultQ_of_ne _ _ _ _ (by decide)]
  · rw [if_neg hc]

theorem lookupA_jordanStep_nh (model : String) (kw : List (String × ℚ)) :
    lookupA (jordanStep model kw) "noise_height" = lookupA kw "noise_height" := by
  unfold jordanStep
  by_cases hc : model = "jordan"
  · rw [if_pos hc, lookupA_setdefaultQ_of_ne _ _ _ _ (by decide),
      lookupA_setdefaultQ_of_ne _ _ _ _ (by decide),
      lookupA_setdefaultQ_of_ne _ _ _ _ (by decide),
      lookupA_setdefaultQ_of_ne _ _ _ _ (by decide),
      lookupA_setdefaultQ_of_ne _ _ _ _ (by decide)]
  · rw [if_neg hc]

/-- The defaulted keyword arguments carry the declared noise_height for
every model of the first group. -/
theorem lookupA_defaultedKwargs_nh (a : NoiseArgs) (hm : a.model ∈ turbGroup)
    (hkw : lookupA a.kwargs "noise_height" = none) :
    lookupA (defaultedKwargs a) "noise_height" = some a.noiseHeight := by
  unfold defaultedKwargs
  rw [lookupA_jordanStep_nh, lookupA_swissStep_nh, lookupA_plawStep_nh,
    lookupA_turbStep_nh _ _ _ hm hkw]

/-- The evaluator kwargs hold noise_height divided by the target radius. -/
theorem lookupA_effectiveKwargs_nh (R : ℚ) (a : NoiseArgs) (hm : a.model ∈ turbGroup)
    (hkw : lookupA a.kwargs "noise_height" = none) :
    lookupA (effectiveKwargs R a) "noise_height" = some (a.noiseHeight / R) :=
  lookupA_normalize_nh _ _ _ (lookupA_defaultedKwargs_nh a hm hkw)

/-- baseNoise reads only keys other than noise_height, so it is invariant
under keyword lists that agree away from noise_height. -/
theorem baseNoise_congr (model : String) (x y z : ℚ) (n : ℕ)
    (anchor : List (ℚ × ℚ × ℚ)) (kw₁ kw₂ : List (String × ℚ))
    (hag : kwAgreeExcept "noise_height" kw₁ kw₂) :
    baseNoise model x y z n anchor kw₁ = baseNoise model x y z n anchor kw₂ := by
  unfold baseNoise getQ
  rw [hag "freq" (by decide), hag "pers" (by decide), hag "slope" (by decide),
    hag "lacunarity" (by decide), hag "gain" (by decide), hag "warp" (by decide)]

/-! ## Claim theorems about apply_noise -/

/-- C2: for every apply_noise call of a model in the noise_height group (so
that a noise_height value, caller-supplied or defaulted, is in effect), the
noise evaluator receives noise_height divided by the target radius, not
noise_height itself; and for fixed other parameters the elevation increment
scales linearly with noise_height. -/
theorem c2_noise_height_normalized_and_linear (s : SimState) (a : NoiseArgs)
    (hm : a.model ∈ turbGroup)
    (hkw : lookupA a.kwargs "noise_height" = none)
    (hR : s.target.radius ≠ 0) :
    lookupA (effectiveKwargs s.target.radius a) "noise_height"
      = some (a.noiseHeight / s.target.radius)
    ∧ (applyNoise s a).elevation = List.zipWith (fun e d => e + d) s.elevation
        ((baseDelta s.target.radius s.nodeCoord s.rngCount a.model a.noiseWidth
          a.numOctaves a.anchor a.kwargs).map (fun d => a.noiseHeight * d)) := by
  have hnh := lookupA_effectiveKwargs_nh s.target.radius a hm hkw
  refine ⟨hnh, ?_⟩
  have hdelta : noiseDelta s.target.radius s.nodeCoord s.rngCount a
      = (baseDelta s.target.radius s.nodeCoord s.rngCount a.model a.noiseWidth
          a.numOctaves a.anchor a.kwargs).map (fun d => a.noiseHeight * d) := by
    unfold noiseDelta baseDelta
    rw [List.map_map, List.map_map]
    refine List.map_congr_left ?_
    intro c hc
    show utilPerlin a.model _ _ _ _ _ _ * s.target.radius = a.noiseHeight * _
    unfold utilPerlin getQ
    rw [hnh]
    simp only [Option.getD_some]
    rw [baseNoise_congr _ _ _ _ _ _ _ _ (effectiveKwargs_agree s.target.radius a 0)]
    field_simp
  show (applyNoise s a).elevation = _
  calc (applyNoise s a).elevation
      = List.zipWith (fun e d => e + d) s.elevation
          (noiseDelta s.target.radius s.nodeCoord s.rngCount a) := rfl
    _ = _ := by rw [hdelta]

/-- C3: apply_noise always adds its increment, scaled back to physical
units by the target radius, to the existing elevation and never overwrites
it; the increment does not depend on the prior elevation, and a second pass
accumulates on top of the first. -/
theorem c3_noise_additive (s : SimState) (a₁ a₂ : NoiseArgs) (e : List ℚ) :
    (applyNoise s a₁).elevation = List.zipWith (fun x d => x + d) s.elevation
        (noiseDelta s.target.radius s.nodeCoord s.rngCount a₁)
    ∧ (applyNoise { s with elevation := e } a₁).elevation
      = List.zipWith (fun x d => x + d) e
          (noiseDelta s.target.radius s.nodeCoord s.rngCount a₁)
    ∧ (applyNoise (applyNoise s a₁) a₂).elevation
      = List.zipWith (fun x d => x + d) (applyNoise s a₁).elevation
          (noiseDelta (applyNoise s a₁).target.radius (applyNoise s a₁).nodeCoord
            (applyNoise s a₁).rngCount a₂) :=
  ⟨rfl, rfl, rfl⟩

/-- C4: two apply_noise calls with identical model, parameters, anchor and
grid coordinates produce identical elevation increments, whatever the rng
state and prior elevation of the two simulations (no hidden state enters
the evaluation). -/
theorem c4_noise_deterministic (s₁ s₂ : SimState) (a : NoiseArgs)
    (A : List (ℚ × ℚ × ℚ))
    (hR : s₁.target.radius = s₂.target.radius)
    (hc : s₁.nodeCoord = s₂.nodeCoord)
    (ha : a.anchor = some A) :
    noiseDelta s₁.target.radius s₁.nodeCoord s₁.rngCount a
      = noiseDelta s₂.target.radius s₂.nodeCoord s₂.rngCount a
    ∧ (applyNoise s₁ a).elevation = List.zipWith (fun x d => x + d) s₁.elevation
        (noiseDelta s₂.target.radius s₂.nodeCoord s₂.rngCount a) := by
  have h1 : noiseDelta s₁.target.radius s₁.nodeCoord s₁.rngCount a
      = noiseDelta s₂.target.radius s₂.nodeCoord s₂.rngCount a := by
    unfold noiseDelta
    rw [hR, hc, ha]
    simp only [Option.getD_some]
  refine ⟨h1, ?_⟩
  rw [← h1]
  rfl

/-- C9: every apply_noise call advances the generator by num_octaves times 3
uniform draws, even when the caller supplies an explicit anchor (the pop
default is evaluated eagerly); every state component other than the
elevation and the rng counter is unchanged. -/
theorem c9_applyNoise_rng_frame (s : SimState) (a : NoiseArgs) :
    (applyNoise s a).rngCount = s.rngCount + 3 * a.numOctaves.getD 12
    ∧ (applyNoise s a).target = s.target
    ∧ (applyNoise s a).nodeCoord = s.nodeCoord
    ∧ (applyNoise s a).cellLoc = s.cellLoc
    ∧ (applyNoise s a).crater = s.crater
    ∧ (applyNoise s a).projectile = s.projectile
    ∧ (applyNoise s a).craterDist = s.craterDist
    ∧ (applyNoise s a).craterBear = s.craterBear :=
  ⟨rfl, rfl, rfl, rfl, rfl, rfl, rfl, rfl⟩

/-- A concrete target for the noise and emplacement witnesses. -/
def targetW : TargetQ := ⟨1, 1, 1, 1 / 2, 1, 1⟩

/-- A concrete simulation state for the noise witnesses. -/
def stateW : SimState :=
  ⟨targetW, 0, [0], [(1, 1, 1)], [], none, none, none, none⟩

/-- The same state with another rng counter and another prior elevation. -/
def stateW2 : SimState :=
  { stateW with rngCount := 99, elevation := [5] }

/-- Concrete apply_noise arguments with an explicit anchor. -/
def argsW : NoiseArgs := { anchor := some [(1, 2, 3)] }

/-- Witness for C2 at concrete inputs. -/
theorem c2_noise_height_normalized_and_linear_witness :
    lookupA (effectiveKwargs stateW.target.radius argsW) "noise_height"
      = some (argsW.noiseHeight / stateW.target.radius) :=
  (c2_noise_height_normalized_and_linear stateW argsW (by decide) rfl
    (by decide)).1

/-- Witness for C4 at concrete inputs: the two states differ in rng counter
and in prior elevation, yet the increments agree. -/
theorem c4_noise_deterministic_witness :
    noiseDelta stateW.target.radius stateW.nodeCoord stateW.rngCount argsW
      = noiseDelta stateW2.target.radius stateW2.nodeCoord stateW2.rngCount argsW :=
  (c4_noise_deterministic stateW stateW2 argsW [(1, 2, 3)] rfl rfl rfl).1

/-! ## Part 4: emplace_crater and the surface queries

The Surface collaborator (cratermaker/core/surface.py) is not under src/;
its three queries are modelled from the spec (section 4.2).  The source of
emplace_crater fixes their call signatures: get_cell_distance receives the
crater location and the target radius, get_cell_initial_bearing only the
location, and get_average_surface the location and the crater radius — so
the one query that can perform the oversized-crater Geometry check of spec
sections 4.2 and 7 is get_average_surface, which runs after the two grid
fields have been written. -/

/-- Modelled from the spec: great-circle distance between two
latitude/longitude points by the spherical law of cosines on a sphere of
the given radius. -/
noncomputable def sphericalDistance (R lat1 lon1 lat2 lon2 : ℝ) : ℝ :=
  R * Real.arccos (Real.sin lat1 * Real.sin lat2
    + Real.cos lat1 * Real.cos lat2 * Real.cos (lon2 - lon1))

/-- Modelled from the spec: the initial bearing (forward azimuth) from one
point to another, normalized to the interval from 0 to 2 pi. -/
noncomputable def initialBearing (lat1 lon1 lat2 lon2 : ℝ) : ℝ :=
  let y := Real.sin (lon2 - lon1) * Real.cos lat2
  let x := Real.cos lat1 * Real.sin lat2
    - Real.sin lat1 * Real.cos lat2 * Real.cos (lon2 - lon1)
  let a := Complex.arg ⟨x, y⟩
  if a < 0 then a + 2 * Real.pi else a

/-- get_cell_distance: the per-cell distance field from a location. -/
noncomputable def distField (R : ℝ) (loc : ℚ × ℚ) (cells : List (ℚ × ℚ)) : List ℝ :=
  cells.map (fun cell =>
    sphericalDistance R (loc.1 : ℝ) (loc.2 : ℝ) (cell.1 : ℝ) (cell.2 : ℝ))

/-- get_cell_initial_bearing: the per-cell bearing field from a location. -/
noncomputable def bearField (loc : ℚ × ℚ) (cells : List (ℚ × ℚ)) : List ℝ :=
  cells.map (fun cell =>
    initialBearing (loc.1 : ℝ) (loc.2 : ℝ) (cell.1 : ℝ) (cell.2 : ℝ))

/-- The outward unit normal of the sphere at a latitude/longitude point. -/
noncomputable def unitNormalAt (lat lon : ℝ) : ℝ × ℝ × ℝ :=
  (Real.cos lat * Real.cos lon, Real.cos lat * Real.sin lon, Real.sin lat)

/-- Modelled from the spec: get_average_surface, the average of the unit
outward normals of the cells within the crater footprint, normalized to
unit length (a degenerate empty footprint yields the zero vector). -/
noncomputable def getAverageSurface (R : ℝ) (loc : ℚ × ℚ) (radius : ℝ)
    (cells : List (ℚ × ℚ)) : ℝ × ℝ × ℝ :=
  let inside := cells.filter (fun cell => decide
    (sphericalDistance R (loc.1 : ℝ) (loc.2 : ℝ) (cell.1 : ℝ) (cell.2 : ℝ) ≤ radius))
  let total := inside.foldl (fun acc cell =>
    let nv := unitNormalAt (cell.1 : ℝ) (cell.2 : ℝ)
    (acc.1 + nv.1, acc.2.1 + nv.2.1, acc.2.2 + nv.2.2)) ((0 : ℝ), (0 : ℝ), (0 : ℝ))
  let len := Real.sqrt (total.1 ^ 2 + total.2.1 ^ 2 + total.2.2 ^ 2)
  (total.1 / len, total.2.1 / len, total.2.2 / len)

/-- The Geometry error taxonomy of spec section 7 that emplacement can
raise. -/
inductive GeometryError where
  | craterTooLarge
deriving DecidableEq

/-- The crater of the generation step of emplace_crater (lines 225-228). -/
noncomputable def emplacedCrater (b : Body) (fromProjectile : Bool) (kw : CraterKw) : Crater :=
  if fromProjectile then (generate_projectile b kw).2 else (generate_crater b kw).1

/-- The projectile of the generation step of emplace_crater. -/
noncomputable def emplacedProjectile (b : Body) (fromProjectile : Bool)
    (kw : CraterKw) : Projectile :=
  if fromProjectile then (generate_projectile b kw).1 else (generate_crater b kw).2

/-- emplace_crater (src/cratermaker/core/simulation.py lines 214-234):
reassign the crater and projectile attributes from the generation step,
write the crater_distance field from the crater location and the target
radius, write the crater_bearing field from the crater location, then ask
the surface for the average normal within the crater radius — the step
that (modelled from the spec) rejects a crater radius exceeding half the
great-circle circumference with a Geometry error.  The returned state is
the mutated state at the moment the call returns or the error escapes. -/
noncomputable def emplaceCrater (s : SimState) (fromProjectile : Bool) (kw : CraterKw) :
    SimState × Option GeometryError :=
  let c := emplacedCrater s.target.toBody fromProjectile kw
  let s1 := { s with crater := some c,
                     projectile := some (emplacedProjectile s.target.toBody fromProjectile kw) }
  let s2 := { s1 with
    craterDist := some (distField s.target.toBody.radius (c.lat, c.lon) s.cellLoc) }
  let s3 := { s2 with craterBear := some (bearField (c.lat, c.lon) s.cellLoc) }
  if c.radius ≤ Real.pi * s.target.toBody.radius then
    ({ s3 with
        crater := some { c with
          average_surface_normal_vector := some (getAverageSurface
            s.target.toBody.radius (c.lat, c.lon) c.radius s.cellLoc) } },
     none)
  else (s3, some GeometryError.craterTooLarge)

theorem emplacedCrater_normal_none (b : Body) (fp : Bool) (kw : CraterKw) :
    (emplacedCrater b fp kw).average_surface_normal_vector = none := by
  cases fp <;> rfl

/-- C6: on every successful emplace_crater call, the simulation holds a
consistent inverse (crater, projectile) pair related by the scaling maps in
both directions, the crater_distance and crater_bearing grid fields are
populated from the crater location, the crater's average surface normal is
set, and nothing else of the state (elevation, rng) is touched. -/
theorem c6_emplace_crater_success (s : SimState) (fp : Bool) (kw : CraterKw)
    (hb : s.target.toBody.resolved)
    (hkd : 0 < kw.diameter) (hkv : 0 < kw.velocity) (hks : 0 < kw.sinAngle)
    (hks1 : kw.sinAngle ≤ 1)
    (hr : (emplacedCrater s.target.toBody fp kw).radius
      ≤ Real.pi * s.target.toBody.radius) :
    (emplaceCrater s fp kw).2 = none
    ∧ (emplaceCrater s fp kw).1.crater
        = some { emplacedCrater s.target.toBody fp kw with
            average_surface_normal_vector := some (getAverageSurface
              s.target.toBody.radius
              ((emplacedCrater s.target.toBody fp kw).lat,
               (emplacedCrater s.target.toBody fp kw).lon)
              (emplacedCrater s.target.toBody fp kw).radius s.cellLoc) }
    ∧ (emplaceCrater s fp kw).1.projectile
        = some (emplacedProjectile s.target.toBody fp kw)
    ∧ (emplaceCrater s fp kw).1.craterDist
        = some (distField s.target.toBody.radius
            ((emplacedCrater s.target.toBody fp kw).lat,
             (emplacedCrater s.target.toBody fp kw).lon) s.cellLoc)
    ∧ (emplaceCrater s fp kw).1.craterBear
        = some (bearField
            ((emplacedCrater s.target.toBody fp kw).lat,
             (emplacedCrater s.target.toBody fp kw).lon) s.cellLoc)
    ∧ projectile_to_crater s.target.toBody (emplacedProjectile s.target.toBody fp kw)
        = emplacedCrater s.target.toBody fp kw
    ∧ crater_to_projectile s.target.toBody
        (emplacedProjectile s.target.toBody fp kw).velocity
        (emplacedProjectile s.target.toBody fp kw).sin_impact_angle
        (emplacedCrater s.target.toBody fp kw)
        = emplacedProjectile s.target.toBody fp kw
    ∧ (emplaceCrater s fp kw).1.elevation = s.elevation
    ∧ (emplaceCrater s fp kw).1.rngCount = s.rngCount := by
  refine ⟨?_, ?_, ?_, ?_, ?_, ?_, ?_, ?_, ?_⟩
  · simp only [emplaceCrater]
    rw [if_pos hr]
  · simp only [emplaceCrater]
    rw [if_pos hr]
  · simp only [emplaceCrater]
    rw [if_pos hr]
  · simp only [emplaceCrater]
    rw [if_pos hr]
  · simp only [emplaceCrater]
    rw [if_pos hr]
  · cases fp with
    | false =>
        exact projectile_to_crater_of_crater_to_projectile _ (mkCrater _ kw) _ _ hb
          (mkCrater_consistent _ kw hkd) (by exact_mod_cast hkv) (by exact_mod_cast hks)
    | true => rfl
  · cases fp with
    | false => rfl
    | true =>
        exact crater_to_projectile_of_projectile_to_crater _ (mkProjectile kw) hb
          (mkProjectile_consistent kw hkd hkv hks hks1)
  · simp only [emplaceCrater]
    rw [if_pos hr]
  · simp only [emplaceCrater]
    rw [if_pos hr]

/-- Construction keywords whose crater fits the witness body. -/
def kwSmall : CraterKw := ⟨2, 0, 0, 1, 1⟩

/-- Witness for C6 at concrete inputs. -/
theorem c6_emplace_crater_success_witness :
    (emplaceCrater stateW false kwSmall).2 = none :=
  (c6_emplace_crater_success stateW false kwSmall
    (by refine ⟨?_, ?_, ?_, ?_, ?_, ?_, ?_⟩ <;>
      norm_num [stateW, targetW, TargetQ.toBody])
    (by norm_num [kwSmall]) (by norm_num [kwSmall]) (by norm_num [kwSmall])
    (by norm_num [kwSmall])
    (by
      have h1 : (emplacedCrater stateW.target.toBody false kwSmall).radius
          = ((2 : ℚ) : ℝ) / 2 := rfl
      have h2 : stateW.target.toBody.radius = ((1 : ℚ) : ℝ) := rfl
      rw [h1, h2]
      push_cast
      nlinarith [Real.pi_gt_three])).1

/-- C5 amended: a crater radius exceeding half the great-circle
circumference is rejected by emplace_crater with a Geometry error, but only
at the surface-normal step — the only surface query that receives the
crater radius — after crater_distance and crater_bearing have already been
rewritten and the simulation's crater and projectile attributes reassigned;
only the average surface normal is left unset (and the elevation is
untouched). -/
theorem c5_geometry_error_after_grid_writes (s : SimState) (fp : Bool) (kw : CraterKw)
    (hr : Real.pi * s.target.toBody.radius
      < (emplacedCrater s.target.toBody fp kw).radius) :
    (emplaceCrater s fp kw).2 = some GeometryError.craterTooLarge
    ∧ (emplaceCrater s fp kw).1.craterDist
        = some (distField s.target.toBody.radius
            ((emplacedCrater s.target.toBody fp kw).lat,
             (emplacedCrater s.target.toBody fp kw).lon) s.cellLoc)
    ∧ (emplaceCrater s fp kw).1.craterBear
        = some (bearField
            ((emplacedCrater s.target.toBody fp kw).lat,
             (emplacedCrater s.target.toBody fp kw).lon) s.cellLoc)
    ∧ (emplaceCrater s fp kw).1.crater = some (emplacedCrater s.target.toBody fp kw)
    ∧ (emplaceCrater s fp kw).1.projectile
        = some (emplacedProjectile s.target.toBody fp kw)
    ∧ (emplacedCrater s.target.toBody fp kw).average_surface_normal_vector = none
    ∧ (emplaceCrater s fp kw).1.elevation = s.elevation := by
  refine ⟨?_, ?_, ?_, ?_, ?_, emplacedCrater_normal_none _ _ _, ?_⟩ <;>
    · simp only [emplaceCrater]
      rw [if_neg (not_le.mpr hr)]

/-- Construction keywords whose crater radius exceeds half the
circumference of the witness body (radius 5 against pi). -/
def kwBig : CraterKw := ⟨10, 0, 0, 1, 1⟩

/-- Counterexample to C5 as stated: at a concrete oversized crater the
Geometry error is raised, yet the crater_distance grid field and the
simulation's crater attribute have both been mutated on the error path. -/
theorem c5_counterexample_state_mutated :
    (emplaceCrater stateW false kwBig).2 = some GeometryError.craterTooLarge
    ∧ (emplaceCrater stateW false kwBig).1.craterDist ≠ stateW.craterDist
    ∧ (emplaceCrater stateW false kwBig).1.crater ≠ stateW.crater := by
  have hr : Real.pi * stateW.target.toBody.radius
      < (emplacedCrater stateW.target.toBody false kwBig).radius := by
    have h1 : (emplacedCrater stateW.target.toBody false kwBig).radius
        = ((10 : ℚ) : ℝ) / 2 := rfl
    have h2 : stateW.target.toBody.radius = ((1 : ℚ) : ℝ) := rfl
    rw [h1, h2]
    push_cast
    nlinarith [Real.pi_le_four]
  have hmain := c5_geometry_error_after_grid_writes stateW false kwBig hr
  refine ⟨hmain.1, ?_, ?_⟩
  · rw [hmain.2.1]
    simp [stateW]
  · rw [hmain.2.2.2.1]
    simp [stateW]

/-- Witness for the amended C5 at concrete inputs. -/
theorem c5_geometry_error_after_grid_writes_witness :
    (emplaceCrater stateW false kwBig).2 = some GeometryError.craterTooLarge :=
  (c5_geometry_error_after_grid_writes stateW false kwBig
    (by
      have h1 : (emplacedCrater stateW.target.toBody false kwBig).radius
          = ((10 : ℚ) : ℝ) / 2 := rfl
      have h2 : stateW.target.toBody.radius = ((1 : ℚ) : ℝ) := rfl
      rw [h1, h2]
      push_cast
      nlinarith [Real.pi_le_four])).1

end Cratermaker
